import Mathlib

/-!
# Insulin pump simulator: shallow embedding of the control core

The C++ classes of the simulator are embedded as Lean structures and their
methods as pure functions.  Conventions:

* C++ `double` is idealised as `ℚ`: arithmetic is exact, there is no rounding,
  no NaN and no infinity.  Literals such as `3.9` are the rationals they
  denote (`39 / 10`).
* The objects owned by `Device` (battery, reserve, bloodstream, pump, CGM
  reader, bolus calculator) and the class-level statics they share
  (`ControlIQAlgorithm::currentRate`, `Alert::raisedAlerts`, the override
  statics of `BolusCalculator`) are the fields of one record, `Device`.  A
  method that reaches other objects through pointers is a function from
  `Device` to `Device`; a method of a leaf class is a function on that class.
* Everything the program sends outwards (log entries, Qt signals, display
  updates) is appended to `Device.events` in program order.
* External inputs of a tick (the two fault check boxes, the random draw of the
  glucose simulator and the active profile) are the fields of `TickInput`.
-/

namespace InsulinPump

/-! ## Data model -/

/-- Active profile as read through `Profile::getActiveProfile()`. -/
structure Profile where
  basalRate : ℚ
  carbRatio : ℚ
  correctionFactor : ℚ
  targetGlucose : ℚ
deriving DecidableEq, Repr

/-- Outputs of the program, in the order they are produced.  `log` is
`DataLogger::logEvent(eventType, description)`; the numbers spliced into the
description text are kept as `args`. -/
inductive Event where
  | log (eventType : String) (description : String) (args : List ℚ)
  | logGlucose (glucose : ℚ)
  | logInsulin (dose : ℚ)
  | bolusDeliveryProgress (remainingBolus : ℚ)
  | bolusTimeRemainingUpdated (timeRemaining : ℚ)
  | bolusCancelled (amount : ℚ)
  | showAlert (type : Int)
  | batteryDead
  | updateStatus (glucose battery insulin : ℚ)
  | updateIOB (iob : ℚ)
  | addGlucoseReading (glucose : ℚ)
  | messageBox (title text : String)
  | outputResult (text : String) (args : List ℚ)
deriving DecidableEq, Repr

/-- True exactly for log entries of type "Error". -/
def Event.isError : Event → Bool
  | .log eventType _ _ => eventType == "Error"
  | _ => false

/-- State of `class InsulinReserve`. -/
structure InsulinReserve where
  insulinRemaining : ℚ
deriving DecidableEq, Repr

/-- State of `class Bloodstream`. -/
structure Bloodstream where
  insulinOnBoard : ℚ
deriving DecidableEq, Repr

/-- State of `class BatteryManager`. -/
structure BatteryManager where
  batteryLevel : ℚ
deriving DecidableEq, Repr

/-- State of `class CGMReader`. -/
structure CGMReader where
  CGMConnected : Bool
  reading : ℚ
deriving DecidableEq, Repr

/-- State of `class PumpController` (the pointers it holds are fields of `Device`). -/
structure PumpController where
  currentBasalRate : ℚ
  activeBolusAmount : ℚ
  activeBolusRate : ℚ
  bolusSuspended : Bool
  emergencyStopped : Bool
  suppressTimeUpdate : Bool
deriving DecidableEq, Repr

/-- State of `class BolusCalculator`, its two static members included. -/
structure BolusCalculator where
  remainingExtendedDose : ℚ
  countdownMinutes : Int
  overriddenDose : ℚ
  doseOverridden : Bool
deriving DecidableEq, Repr

/-- The device with every object it owns and the statics they share. -/
structure Device where
  poweredOn : Bool
  monitoring : Bool
  paused : Bool
  battery : BatteryManager
  insulin : InsulinReserve
  bloodstream : Bloodstream
  pump : PumpController
  cgm : CGMReader
  bolusCalculator : BolusCalculator
  currentRate : ℚ
  raisedAlerts : Int → Bool
  events : List Event

/-- External inputs read during one tick. -/
structure TickInput where
  pumpErrorBox : Bool
  cgmErrorBox : Bool
  random : ℚ
  profile : Profile
deriving DecidableEq, Repr

/-! ## InsulinReserve -/

namespace InsulinReserve

/-- Constant `maxAmount`. -/
def maxAmount : ℚ := 300

/-- Constant `lowAmount`. -/
def lowAmount : ℚ := maxAmount / 10

/-- Constructor: the reserve starts full. -/
def init : InsulinReserve := { insulinRemaining := maxAmount }

/-- Method `getInsulinRemaining`. -/
def getInsulinRemaining (r : InsulinReserve) : ℚ := r.insulinRemaining

/-- Method `useInsulin`: the returned pair is (units deployed, reserve afterwards). -/
def useInsulin (r : InsulinReserve) (amount : ℚ) : ℚ × InsulinReserve :=
  if amount ≤ r.insulinRemaining then
    (amount, { r with insulinRemaining := r.insulinRemaining - amount })
  else
    (r.insulinRemaining, { r with insulinRemaining := 0 })

/-- Method `isInsulinLow`. -/
def isInsulinLow (r : InsulinReserve) : Bool := decide (r.insulinRemaining ≤ lowAmount)

/-- Method `refillInsulin`. -/
def refillInsulin (r : InsulinReserve) : InsulinReserve :=
  { r with insulinRemaining := maxAmount }

end InsulinReserve

/-! ## Bloodstream -/

namespace Bloodstream

/-- Constructor. -/
def init : Bloodstream := { insulinOnBoard := 0 }

/-- Method `getIOB`. -/
def getIOB (b : Bloodstream) : ℚ := b.insulinOnBoard

/-- Method `absorbUnits`. -/
def absorbUnits (b : Bloodstream) (insulin : ℚ) : Bloodstream :=
  { b with insulinOnBoard := max 0 (b.insulinOnBoard - insulin) }

/-- Method `injectUnits`. -/
def injectUnits (b : Bloodstream) (insulin : ℚ) : Bloodstream :=
  { b with insulinOnBoard := b.insulinOnBoard + insulin }

end Bloodstream

/-! ## BatteryManager -/

namespace BatteryManager

/-- Constant `criticalValue`. -/
def criticalValue : ℚ := 15 / 100

/-- Constructor. -/
def init : BatteryManager := { batteryLevel := 1 }

/-- Method `getBatteryLevel`. -/
def getBatteryLevel (b : BatteryManager) : ℚ := b.batteryLevel

/-- Method `drainBattery`: the Boolean tells whether `batteryDead` was emitted. -/
def drainBattery (b : BatteryManager) : BatteryManager × Bool :=
  let level := b.batteryLevel - 1 / 1000
  if level ≤ 0 then ({ b with batteryLevel := 0 }, true)
  else ({ b with batteryLevel := level }, false)

/-- Method `chargeBattery`. -/
def chargeBattery (b : BatteryManager) : BatteryManager := { b with batteryLevel := 1 }

/-- Method `isBatteryCritical`. -/
def isBatteryCritical (b : BatteryManager) : Bool := decide (b.batteryLevel ≤ criticalValue)

end BatteryManager

/-! ## Device plumbing: the event sink -/

namespace Device

/-- Append one output to the event trace. -/
def emit (d : Device) (e : Event) : Device := { d with events := d.events ++ [e] }

/-- Call of `DataLogger::logEvent`. -/
def logEvent (d : Device) (eventType description : String) (args : List ℚ) : Device :=
  d.emit (Event.log eventType description args)

end Device

/-! ## PumpController -/

namespace PumpController

/-- Constructor. -/
def init : PumpController :=
  { currentBasalRate := 0, activeBolusAmount := 0, activeBolusRate := 0,
    bolusSuspended := false, emergencyStopped := false, suppressTimeUpdate := false }

/-- Method `deliverBolus`. -/
def deliverBolus (d : Device) (amount rate : ℚ) (suppressTime : Bool) : Device :=
  if d.pump.emergencyStopped || d.pump.bolusSuspended then
    d.logEvent "Error" "Bolus blocked due to unsafe condition." []
  else
    let delivered := min d.insulin.getInsulinRemaining amount
    let d1 := { d with pump := { d.pump with activeBolusAmount := delivered,
                                             activeBolusRate := rate,
                                             suppressTimeUpdate := suppressTime } }
    d1.logEvent "Info" "Delivered %1 units at rate %2" [delivered, rate]

/-- Method `adjustBasalRate`. -/
def adjustBasalRate (d : Device) (rate : ℚ) : Device :=
  { d with pump := { d.pump with currentBasalRate := rate } }

/-- Method `suspendBolus`. -/
def suspendBolus (d : Device) : Device :=
  let d1 := { d with pump := { d.pump with bolusSuspended := true } }
  let d2 := d1.emit (Event.bolusCancelled d1.pump.activeBolusAmount)
  let d3 := d2.logEvent "Warning" "Bolus cancelled with %1 units remaining to deliver"
    [d2.pump.activeBolusAmount]
  { d3 with pump := { d3.pump with activeBolusAmount := 0 } }

/-- Method `resumeBolus`. -/
def resumeBolus (d : Device) : Device :=
  if !d.pump.emergencyStopped then
    let d1 := { d with pump := { d.pump with bolusSuspended := false } }
    d1.logEvent "Info" "Bolus delivery resumed." []
  else d

/-- Method `checkDeviceStatus`. -/
def checkDeviceStatus (d : Device) : Int :=
  if d.pump.emergencyStopped then 2
  else if d.pump.bolusSuspended then 1
  else 0

/-- Method `triggerEmergencyStop`. -/
def triggerEmergencyStop (d : Device) : Device :=
  let d1 := { d with pump := { d.pump with emergencyStopped := true } }
  d1.logEvent "Warning" "Emergency stop activated." []

/-- Lines 81 to 90 of `PumpController::pump`: the bolus fraction of this tick. -/
def bolusStep (d0 : Device) : Device :=
  if !(d0.pump.bolusSuspended || decide (d0.pump.activeBolusAmount ≤ 0)) then
    let unitsPerTick := d0.pump.activeBolusRate / 12
    let deliveredThisTick :=
      if d0.pump.activeBolusAmount < unitsPerTick then d0.pump.activeBolusAmount
      else unitsPerTick
    let d1 := { d0 with pump := { d0.pump with
      activeBolusAmount := d0.pump.activeBolusAmount - deliveredThisTick } }
    let d2 := d1.emit (Event.bolusDeliveryProgress d1.pump.activeBolusAmount)
    { d2 with bloodstream := d2.bloodstream.injectUnits deliveredThisTick,
              insulin := (d2.insulin.useInsulin deliveredThisTick).2 }
  else d0

/-- Lines 92 and 93 of `PumpController::pump`: the basal delivery of this tick. -/
def basalStep (d3 : Device) : Device :=
  { d3 with bloodstream := d3.bloodstream.injectUnits (d3.pump.currentBasalRate / 12),
            insulin := (d3.insulin.useInsulin (d3.pump.currentBasalRate / 12)).2 }

/-- Method `pump`: one simulation tick of the pump.  `errorChecked` is the value
of `errorCheckBox->isChecked()` read at the start of the call. -/
def pump (d : Device) (errorChecked : Bool) : Device :=
  let d0 := { d with pump := { d.pump with emergencyStopped := errorChecked } }
  if d0.pump.emergencyStopped then d0
  else basalStep (bolusStep d0)

/-- Run `n` consecutive pump ticks with the fault signal off. -/
def pumpTicks : Nat → Device → Device
  | 0, d => d
  | n + 1, d => pumpTicks n (pump d false)

end PumpController

/-! ## CGMReader -/

namespace CGMReader

/-- Constant `volatility`. -/
def volatility : ℚ := 8 / 10

/-- Constant `startAmount`. -/
def startAmount : ℚ := 6

/-- Constant `increasePerHour`. -/
def increasePerHour : ℚ := 2

/-- Constant `insulinUsageRate`. -/
def insulinUsageRate : ℚ := 2

/-- Constructor. -/
def init : CGMReader := { CGMConnected := true, reading := startAmount }

/-- Method `getCurrentGlucoseLevel`; `random` is the value drawn from
`generateDouble()`.  Returns the sample and the device afterwards. -/
def getCurrentGlucoseLevel (d : Device) (correctionFactor random : ℚ) : ℚ × Device :=
  let randomVariance := (random - 1 / 2) * volatility * 2
  let reading1 := d.cgm.reading
    + (increasePerHour / 12 + increasePerHour / 12 * randomVariance)
  let absorbed := max 0 (min (insulinUsageRate / 12) d.bloodstream.getIOB)
  let reading2 := reading1 - absorbed * correctionFactor
  let d1 := { d with cgm := { d.cgm with reading := reading2 },
                     bloodstream := d.bloodstream.absorbUnits absorbed }
  if d1.cgm.CGMConnected then (d1.cgm.reading, d1) else (-1, d1)

/-- Method `isCGMConnected`; `errorChecked` is `errorCheckBox->isChecked()`. -/
def isCGMConnected (d : Device) (errorChecked : Bool) : Bool × Device :=
  let d1 := { d with cgm := { d.cgm with CGMConnected := !errorChecked } }
  (d1.cgm.CGMConnected, d1)

/-- Method `intakeGlucose`. -/
def intakeGlucose (d : Device) (glucose : ℚ) : Device :=
  { d with cgm := { d.cgm with reading := d.cgm.reading + glucose } }

end CGMReader

/-! ## ControlIQAlgorithm -/

namespace ControlIQAlgorithm

/-- Method `adjustBasalRate(pump, rate)`.  The pump pointer handed over by
`Device::monitor` is the pump the device created, never null. -/
def adjustBasalRate (d : Device) (rate : ℚ) : Device :=
  PumpController.adjustBasalRate { d with currentRate := rate } rate

/-- Method `analyzeGlucoseData`. -/
def analyzeGlucoseData (d : Device) (glucose : ℚ) (profile : Profile) : Device :=
  let target := profile.targetGlucose
  let profileRate := profile.basalRate
  if glucose ≤ 39 / 10 then
    (adjustBasalRate d 0).logEvent "Warning"
      "Low glucose detected. Basal rate pumping suspended." []
  else if glucose > target ∧ d.currentRate = 0 then
    (adjustBasalRate d profileRate).logEvent "Info"
      "Glucose stable. Resumed basal rate pumping." []
  else if d.currentRate ≠ 0 ∧ d.currentRate ≠ profileRate then
    (adjustBasalRate d profileRate).logEvent "Info"
      "Profile basal rate set manually to %1." [profileRate]
  else d

end ControlIQAlgorithm

/-! ## Alert -/

namespace Alert

/-- Constant `BATTERY_LOW`. -/
def BATTERY_LOW : Int := 1
/-- Constant `INSULIN_LOW`. -/
def INSULIN_LOW : Int := 2
/-- Constant `CGM_DISCONNECTED`. -/
def CGM_DISCONNECTED : Int := 3
/-- Constant `PUMP_OCCLUSION`. -/
def PUMP_OCCLUSION : Int := 6
/-- Constant `GLUCOSE_LOW`. -/
def GLUCOSE_LOW : Int := 4
/-- Constant `GLUCOSE_HIGH`. -/
def GLUCOSE_HIGH : Int := 5

/-- Log description chosen by the `switch` of `Alert::raise`; `none` for a type
outside the six cases. -/
def logText (type : Int) : Option String :=
  if type = BATTERY_LOW then some "Low Battery"
  else if type = INSULIN_LOW then some "Low Insulin"
  else if type = CGM_DISCONNECTED then some "CGM disconnected"
  else if type = PUMP_OCCLUSION then some "Pump occluded"
  else if type = GLUCOSE_LOW then some "Glucose went below minimum safe level"
  else if type = GLUCOSE_HIGH then some "Glucose went above maximum safe level"
  else none

/-- Method `Alert::raise`. -/
def raise (d : Device) (type : Int) : Device :=
  if !(d.raisedAlerts type) then
    let d1 := match logText type with
      | some text => d.logEvent "Warning" text []
      | none => d
    let d2 := d1.emit (Event.showAlert type)
    { d2 with raisedAlerts := fun t => if t = type then true else d2.raisedAlerts t }
  else d

/-- Method `Alert::reset`. -/
def reset (d : Device) (type : Int) : Device :=
  { d with raisedAlerts := fun t => if t = type then false else d.raisedAlerts t }

end Alert

/-! ## BolusCalculator: extended-dose scheduling -/

namespace BolusCalculator

/-- Constant `bolusRate`. -/
def bolusRate : ℚ := 10

/-- Constructor (the statics start at their definitions). -/
def init : BolusCalculator :=
  { remainingExtendedDose := 0, countdownMinutes := 0,
    overriddenDose := 0, doseOverridden := false }

/-- Method `calculateCorrectionBolus`. -/
def calculateCorrectionBolus (glucose target correctionFactor : ℚ) : ℚ :=
  if correctionFactor ≤ 0 then 0
  else
    let diff := glucose - target
    if diff > 0 then diff / correctionFactor else 0

/-- Method `calculateCarbBolus`.  With `carbRatio > 0` and a zero
`correctionFactor` the source divides by zero and returns an infinity or NaN,
where this function returns 0 (division in `ℚ`); that case lies outside the
idealisation of `double` as `ℚ`, and statements about delivery are made for a
non-zero correction factor. -/
def calculateCarbBolus (carbs carbRatio correctionFactor : ℚ) : ℚ :=
  if carbRatio ≤ 0 then 0
  else (carbs * carbRatio) / correctionFactor

/-- Method `calculateBolus`; `profile` is the active profile. -/
def calculateBolus (d : Device) (glucose carbs : ℚ) (profile : Profile) : ℚ :=
  if d.bolusCalculator.doseOverridden then d.bolusCalculator.overriddenDose
  else
    let carbDose := calculateCarbBolus carbs profile.carbRatio profile.correctionFactor
    let correctionDose :=
      calculateCorrectionBolus glucose profile.targetGlucose profile.correctionFactor
    carbDose + correctionDose

/-- Method `overrideDose`. -/
def overrideDose (d : Device) (dose : ℚ) : Device :=
  { d with bolusCalculator :=
    { d.bolusCalculator with overriddenDose := dose, doseOverridden := true } }

/-- Method `validateBolusInput`. -/
def validateBolusInput (dose : ℚ) : Bool := decide (dose > 0) && decide (dose ≤ 25)

/-- Method `on_btnCalculate_clicked`; `ok1, glucose` and `ok2, carbs` are the
results of the two `toDouble` calls. -/
def on_btnCalculate_clicked (d : Device) (ok1 : Bool) (glucose : ℚ) (ok2 : Bool)
    (carbs : ℚ) (profile : Profile) : Device :=
  if !ok1 || !ok2 then d.emit (Event.outputResult "Invalid input" [])
  else
    let d1 := { d with bolusCalculator :=
      { d.bolusCalculator with doseOverridden := false, overriddenDose := 0 } }
    let dose := calculateBolus d1 glucose carbs profile
    d1.emit (Event.outputResult "%1" [dose])

/-- Method `on_btnOverrideConfirm_clicked`; `ok, dose` is the result of `toDouble`. -/
def on_btnOverrideConfirm_clicked (d : Device) (ok : Bool) (dose : ℚ) : Device :=
  if !ok || !validateBolusInput dose then d.emit (Event.outputResult "Invalid override" [])
  else (overrideDose d dose).emit (Event.outputResult "%1 (Overridden)" [dose])

/-- Answers the user gives to `on_btnDeliver_clicked`: the two parsed text
fields and the dialog results. -/
structure DeliverInput where
  ok1 : Bool
  glucose : ℚ
  ok2 : Bool
  carbs : ℚ
  extended : Bool
  okNow : Bool
  nowPct : ℚ
  okTime : Bool
  mins : Int
  confirm : Bool
deriving DecidableEq, Repr

/-- Method `on_btnDeliver_clicked`.  The dose is the rational dose of
`calculateBolus`, which is the dose of the source for a non-zero correction
factor. -/
def on_btnDeliver_clicked (d : Device) (ui : DeliverInput) (profile : Profile) : Device :=
  let dose := calculateBolus d ui.glucose ui.carbs profile
  if !ui.ok1 || !ui.ok2 || decide (dose ≤ 0) then
    d.emit (Event.messageBox "Invalid" "Please calculate bolus first.")
  else if ui.glucose < 39 / 10 then
    d.emit (Event.messageBox "Bolus Disabled" "Glucose too low. Bolus delivery is disabled.")
  else if ui.extended then
    let laterPct := 100 - ui.nowPct
    if !ui.okNow || !ui.okTime || decide (ui.nowPct + laterPct ≠ 100) then
      d.emit (Event.messageBox "Error" "Invalid percentages or time.")
    else
      let nowDose := dose * (ui.nowPct / 100)
      let laterDose := dose - nowDose
      let d1 := PumpController.resumeBolus d
      let d2 := { d1 with bolusCalculator :=
        { d1.bolusCalculator with countdownMinutes := ui.mins } }
      let d3 := PumpController.deliverBolus d2 nowDose bolusRate true
      let d4 := d3.logEvent "Extended Bolus" "Now: %1 units, Later: %2 units in %3 min"
        [nowDose, laterDose, (ui.mins : ℚ)]
      { d4 with bolusCalculator :=
        { d4.bolusCalculator with remainingExtendedDose := laterDose } }
  else if ui.confirm then
    let d1 := PumpController.resumeBolus d
    let d2 := PumpController.deliverBolus d1 dose bolusRate true
    d2.logEvent "Manual Extended Bolus" "Delivered %1 units" [dose]
  else d

/-- Method `on_btnCancelBolus_clicked` (the pump pointer is never null). -/
def on_btnCancelBolus_clicked (d : Device) : Device :=
  let d1 := PumpController.suspendBolus d
  let d2 := d1.logEvent "Manual" "Bolus Delivery has been cancelled by user" []
  let d3 := d2.emit (Event.bolusTimeRemainingUpdated 0)
  d3.emit (Event.messageBox "Cancelled" "Bolus Delivery has been cancelled")

/-- Method `deliverExtendedDose`.  The pump and logger pointers are the ones the
device created, never null. -/
def deliverExtendedDose (d : Device) : Device :=
  if d.bolusCalculator.remainingExtendedDose > 0 then
    let d1 := PumpController.resumeBolus d
    let d2 := PumpController.deliverBolus d1 d1.bolusCalculator.remainingExtendedDose
      bolusRate true
    let d3 := d2.logEvent "Extended Bolus Delivered"
      "Delivered extended dose of %1 units." [d2.bolusCalculator.remainingExtendedDose]
    let d4 := { d3 with bolusCalculator :=
      { d3.bolusCalculator with remainingExtendedDose := 0 } }
    d4.emit (Event.bolusTimeRemainingUpdated 0)
  else d

/-- Method `updateCountdown`. -/
def updateCountdown (d : Device) : Device :=
  let d1 := { d with bolusCalculator :=
    { d.bolusCalculator with countdownMinutes := d.bolusCalculator.countdownMinutes - 5 } }
  let d3 :=
    if d1.bolusCalculator.countdownMinutes ≤ 0 then
      let d2 := { d1 with bolusCalculator := { d1.bolusCalculator with countdownMinutes := 0 } }
      deliverExtendedDose d2
    else d1
  d3.emit (Event.bolusTimeRemainingUpdated d3.bolusCalculator.countdownMinutes)

end BolusCalculator

/-! ## UserInterface -/

namespace UserInterface

/-- Method `UserInterface::refresh`: the three display updates are recorded as
events, the bolus calculator countdown is advanced. -/
def refresh (d : Device) (glucose battery insulin iob : ℚ) : Device :=
  let d1 := d.emit (Event.updateStatus glucose battery insulin)
  let d2 := d1.emit (Event.updateIOB iob)
  let d3 := BolusCalculator.updateCountdown d2
  d3.emit (Event.addGlucoseReading glucose)

end UserInterface

/-! ## Device -/

namespace Device

/-- Constructor: the state after `Device::Device`. -/
def init : Device :=
  { poweredOn := false, monitoring := false, paused := false,
    battery := BatteryManager.init, insulin := InsulinReserve.init,
    bloodstream := Bloodstream.init, pump := PumpController.init,
    cgm := CGMReader.init, bolusCalculator := BolusCalculator.init,
    currentRate := 0, raisedAlerts := fun _ => false, events := [] }

/-- Method `Device::noPower`, the slot connected to `batteryDead`. -/
def noPower (d : Device) : Device :=
  { d with poweredOn := false, monitoring := false }

/-- Method `Device::safetyChecks`. -/
def safetyChecks (d : Device) (glucose target : ℚ) (inp : TickInput) : Device :=
  let d1 := if d.battery.isBatteryCritical then Alert.raise d Alert.BATTERY_LOW else d
  let d2 := if d1.insulin.isInsulinLow then Alert.raise d1 Alert.INSULIN_LOW else d1
  let c := CGMReader.isCGMConnected d2 inp.cgmErrorBox
  let d3 := if c.1 then Alert.reset c.2 Alert.CGM_DISCONNECTED
    else Alert.raise c.2 Alert.CGM_DISCONNECTED
  let d4 := if !inp.pumpErrorBox then Alert.reset d3 Alert.PUMP_OCCLUSION
    else Alert.raise d3 Alert.PUMP_OCCLUSION
  if glucose = -1 then
    PumpController.suspendBolus d4
  else if glucose < 39 / 10 then
    Alert.raise (PumpController.suspendBolus d4) Alert.GLUCOSE_LOW
  else if glucose > target + 2 then
    Alert.raise d4 Alert.GLUCOSE_HIGH
  else if glucose ≤ target + 1 / 2 ∧ glucose ≥ target - 1 / 2 then
    Alert.reset (Alert.reset d4 Alert.GLUCOSE_HIGH) Alert.GLUCOSE_LOW
  else d4

/-- The block of `Device::monitor` guarded by `glucose != -1`: control
decision, pump tick and the two telemetry log calls. -/
def pumpLogic (d : Device) (glucose : ℚ) (inp : TickInput) : Device :=
  let d1 := ControlIQAlgorithm.analyzeGlucoseData d glucose inp.profile
  let d2 := PumpController.pump d1 inp.pumpErrorBox
  let d3 := d2.emit (Event.logGlucose glucose)
  d3.emit (Event.logInsulin d3.bloodstream.getIOB)

/-- Method `Device::monitor`. -/
def monitor (d : Device) (inp : TickInput) : Device :=
  let batteryLevel := d.battery.getBatteryLevel
  let s := CGMReader.getCurrentGlucoseLevel d inp.profile.correctionFactor inp.random
  let glucose := s.1
  let target := inp.profile.targetGlucose
  let insulinReading := s.2.insulin.getInsulinRemaining
  let d1 := safetyChecks s.2 glucose target inp
  let d2 := if glucose ≠ -1 then pumpLogic d1 glucose inp else d1
  let currentIOB := d2.bloodstream.getIOB
  UserInterface.refresh d2 glucose batteryLevel insulinReading currentIOB

/-- Method `Device::tick`; the battery drain runs the `noPower` slot when the
battery dies. -/
def tick (d : Device) (inp : TickInput) : Device :=
  let b := d.battery.drainBattery
  let d1 := { d with battery := b.1 }
  let d2 := if b.2 then noPower (d1.emit Event.batteryDead) else d1
  if d2.monitoring then monitor d2 inp else d2

/-- Method `Device::power`. -/
def power (d : Device) : Device :=
  if d.poweredOn || decide (d.battery.getBatteryLevel = 0) then
    { d with poweredOn := false, monitoring := false }
  else
    { d with poweredOn := true }

/-- Method `Device::startMonitoring`, the slot connected to `deviceUnlocked`. -/
def startMonitoring (d : Device) (inp : TickInput) : Device :=
  let d1 := { d with monitoring := true }
  if !d1.paused then tick d1 inp else d1

/-- Method `Device::togglePaused`. -/
def togglePaused (d : Device) : Device :=
  if d.paused then { d with paused := false } else { d with paused := true }

/-- Method `Device::simCarbIntake`; `carbs` is the value of the spin box. -/
def simCarbIntake (d : Device) (carbs : ℚ) (profile : Profile) : Device :=
  let ratio := profile.carbRatio
  CGMReader.intakeGlucose d (ratio * carbs)

/-- Slots connected to the charge button. -/
def chargeBatteryReleased (d : Device) : Device :=
  Alert.reset { d with battery := d.battery.chargeBattery } Alert.BATTERY_LOW

/-- Slot connected to the refill button: `InsulinReserve::refillInsulin`. -/
def refillInsulinReleased (d : Device) : Device :=
  { d with insulin := d.insulin.refillInsulin }

end Device

/-! ## The device as a transition system -/

/-- Everything that can happen to the device between and at ticks. -/
inductive Command where
  | power
  | startMonitoring (inp : TickInput)
  | togglePaused
  | tick (inp : TickInput)
  | sample (correctionFactor random : ℚ)
  | simCarbIntake (carbs : ℚ) (profile : Profile)
  | deliverBolus (amount rate : ℚ) (suppressTime : Bool)
  | suspendBolus
  | resumeBolus
  | refillInsulin
  | chargeBattery
  | calculateClicked (ok1 : Bool) (glucose : ℚ) (ok2 : Bool) (carbs : ℚ) (profile : Profile)
  | overrideConfirmClicked (ok : Bool) (dose : ℚ)
  | deliverClicked (ui : BolusCalculator.DeliverInput) (profile : Profile)
  | cancelBolusClicked
deriving DecidableEq, Repr

namespace Command

/-- Data-model side conditions on a command: the basal rate of the profile a
tick reads and the rate of a requested bolus are not negative. -/
def valid : Command → Prop
  | startMonitoring inp => 0 ≤ inp.profile.basalRate
  | tick inp => 0 ≤ inp.profile.basalRate
  | deliverBolus _ rate _ => 0 ≤ rate
  | _ => True

instance (c : Command) : Decidable c.valid := by
  cases c <;> unfold valid <;> infer_instance

end Command

namespace Device

/-- Effect of one command. -/
def exec (d : Device) : Command → Device
  | .power => d.power
  | .startMonitoring inp => d.startMonitoring inp
  | .togglePaused => d.togglePaused
  | .tick inp => d.tick inp
  | .sample correctionFactor random =>
      (CGMReader.getCurrentGlucoseLevel d correctionFactor random).2
  | .simCarbIntake carbs profile => d.simCarbIntake carbs profile
  | .deliverBolus amount rate suppressTime =>
      PumpController.deliverBolus d amount rate suppressTime
  | .suspendBolus => PumpController.suspendBolus d
  | .resumeBolus => PumpController.resumeBolus d
  | .refillInsulin => d.refillInsulinReleased
  | .chargeBattery => d.chargeBatteryReleased
  | .calculateClicked ok1 glucose ok2 carbs profile =>
      BolusCalculator.on_btnCalculate_clicked d ok1 glucose ok2 carbs profile
  | .overrideConfirmClicked ok dose => BolusCalculator.on_btnOverrideConfirm_clicked d ok dose
  | .deliverClicked ui profile => BolusCalculator.on_btnDeliver_clicked d ui profile
  | .cancelBolusClicked => BolusCalculator.on_btnCancelBolus_clicked d

/-- Effect of a sequence of commands, first to last. -/
def run (d : Device) : List Command → Device
  | [] => d
  | c :: cs => run (d.exec c) cs

end Device

/-! ## Concrete states used as witnesses and failing inputs -/

/-- Default profile created by `Profile::initDefaultProfile`. -/
def defaultProfile : Profile :=
  { basalRate := 8 / 10, carbRatio := 9 / 100, correctionFactor := 5 / 2, targetGlucose := 11 / 2 }

/-- A tick input with both fault boxes unchecked, the middle random draw
(variance 0) and the default profile. -/
def quietInput : TickInput :=
  { pumpErrorBox := false, cgmErrorBox := false, random := 1 / 2, profile := defaultProfile }

/-- The fresh device after its bolus has been suspended. -/
def suspendedDevice : Device :=
  { Device.init with pump := { PumpController.init with bolusSuspended := true } }

/-- An empty reserve with the default basal rate running and no bolus. -/
def emptyReserveDevice : Device :=
  { Device.init with insulin := { insulinRemaining := 0 },
                     pump := { PumpController.init with currentBasalRate := 8 / 10 } }

/-- A bolus in flight (1/6 unit left at rate 10) over a reserve holding 1/10 unit. -/
def shortReserveDevice : Device :=
  { Device.init with insulin := { insulinRemaining := 1 / 10 },
                     pump := { PumpController.init with activeBolusAmount := 1 / 6,
                                                        activeBolusRate := 10 } }

/-- A monitoring device whose CGM link was found disconnected on the tick
before, with the default basal rate running. -/
def disconnectedDevice : Device :=
  { Device.init with monitoring := true,
                     cgm := { CGMConnected := false, reading := 6 },
                     currentRate := 8 / 10,
                     pump := { PumpController.init with currentBasalRate := 8 / 10 } }

/-- A monitoring device with an extended bolus pending (1 unit due in 5
minutes) whose next glucose sample under `quietInput` is 3.5. -/
def extendedPendingDevice : Device :=
  { Device.init with monitoring := true,
                     cgm := { CGMConnected := true, reading := 10 / 3 },
                     bolusCalculator := { BolusCalculator.init with
                       remainingExtendedDose := 1, countdownMinutes := 5 } }

/-- The fresh device with a reserve of 2 units. -/
def twoUnitDevice : Device :=
  { Device.init with insulin := { insulinRemaining := 2 } }

/-- The fresh device with a bolus of 5 units in flight at rate 60. -/
def bolusDevice : Device :=
  { Device.init with pump := { PumpController.init with activeBolusAmount := 5,
                                                        activeBolusRate := 60 } }

/-- The fresh device once monitoring has started. -/
def monitoringDevice : Device := { Device.init with monitoring := true }

/-- A tick input whose CGM fault box is checked. -/
def disconnectedInput : TickInput := { quietInput with cgmErrorBox := true }

/-- State of the device inside `Device::monitor` at line 92 of
`PumpController::pump`, right before the two basal calls: the sample has been
taken, the safety checks and the control decision have run, the fault box has
been read and the bolus fraction of this tick has been delivered. -/
def Device.beforeBasal (d : Device) (inp : TickInput) : Device :=
  let s := CGMReader.getCurrentGlucoseLevel d inp.profile.correctionFactor inp.random
  let d1 := Device.safetyChecks s.2 s.1 inp.profile.targetGlucose inp
  let d2 := ControlIQAlgorithm.analyzeGlucoseData d1 s.1 inp.profile
  PumpController.bolusStep
    { d2 with pump := { d2.pump with emergencyStopped := inp.pumpErrorBox } }

/-- The quantities the non-negativity invariant speaks about: reserve level,
insulin on board, basal rate and bolus rate. -/
def Device.core (d : Device) : ℚ × ℚ × ℚ × ℚ :=
  (d.insulin.insulinRemaining, d.bloodstream.insulinOnBoard,
   d.pump.currentBasalRate, d.pump.activeBolusRate)

/-- Invariant of the device: the reserve level, the insulin on board, the basal
rate and the bolus rate are not negative. -/
def Device.Safe (d : Device) : Prop :=
  0 ≤ d.insulin.insulinRemaining ∧ 0 ≤ d.bloodstream.insulinOnBoard
  ∧ 0 ≤ d.pump.currentBasalRate ∧ 0 ≤ d.pump.activeBolusRate

/-- A valid command sequence exercising every kind of step named in the
invariant claim. -/
def sampleSession : List Command :=
  [Command.power, Command.startMonitoring quietInput, Command.deliverBolus 5 60 false,
   Command.tick quietInput, Command.sample (5 / 2) (1 / 4), Command.suspendBolus,
   Command.resumeBolus, Command.refillInsulin, Command.tick quietInput]

/-- A tick input with both fault boxes unchecked, the lowest random draw
(variance -0.8) and the default profile. -/
def lowInput : TickInput := { quietInput with random := 0 }

/-- A deliver request for glucose 8 and 60 g of carbohydrate (3.16 units under
the default profile) as an extended bolus: half now, half in 35 minutes. -/
def extendedRequest : BolusCalculator.DeliverInput :=
  { ok1 := true, glucose := 8, ok2 := true, carbs := 60, extended := true, okNow := true,
    nowPct := 50, okTime := true, mins := 35, confirm := false }

/-- A session from power-on: unlock, request the extended bolus, then six ticks.
The immediate half of the bolus brings the glucose down; the delayed half falls
due on the seventh tick. -/
def lowGlucoseSession : List Command :=
  [Command.power, Command.startMonitoring lowInput,
   Command.deliverClicked extendedRequest defaultProfile,
   Command.tick lowInput, Command.tick lowInput, Command.tick lowInput,
   Command.tick lowInput, Command.tick lowInput, Command.tick lowInput]

/-- Calls that can be made on the pump controller. -/
inductive PumpOp where
  | tick (errorChecked : Bool)
  | resumeBolus
  | suspendBolus
  | deliverBolus (amount rate : ℚ) (suppressTime : Bool)
  | adjustBasalRate (rate : ℚ)
  | triggerEmergencyStop
deriving DecidableEq, Repr

/-- The external fault signal is asserted at this call (a condition on ticks only). -/
def PumpOp.faultAsserted : PumpOp → Prop
  | .tick errorChecked => errorChecked = true
  | _ => True

/-- Effect of one call on the pump controller. -/
def PumpController.applyOp (d : Device) : PumpOp → Device
  | .tick errorChecked => PumpController.pump d errorChecked
  | .resumeBolus => PumpController.resumeBolus d
  | .suspendBolus => PumpController.suspendBolus d
  | .deliverBolus amount rate suppressTime =>
      PumpController.deliverBolus d amount rate suppressTime
  | .adjustBasalRate rate => PumpController.adjustBasalRate d rate
  | .triggerEmergencyStop => PumpController.triggerEmergencyStop d

/-- Effect of a sequence of calls on the pump controller, first to last. -/
def PumpController.runOps (d : Device) : List PumpOp → Device
  | [] => d
  | op :: ops => PumpController.runOps (PumpController.applyOp d op) ops

/-- A sequence of calls with the fault signal asserted at every tick. -/
def faultedOps : List PumpOp :=
  [PumpOp.tick true, PumpOp.resumeBolus, PumpOp.suspendBolus,
   PumpOp.deliverBolus 5 60 false, PumpOp.adjustBasalRate 1, PumpOp.tick true]

/-- The fresh device with the pump suspended and in emergency. -/
def emergencyDevice : Device :=
  { Device.init with pump := { PumpController.init with bolusSuspended := true,
                                                        emergencyStopped := true } }

/-- Control decision as the spec words it (section 4.5): the new basal rate as a
function of the glucose value, the active profile and the current basal rate
of the pump, by the four rules in priority order. -/
def ControlIQAlgorithm.decideSpec (glucose : ℚ) (profile : Profile) (pumpCurrentRate : ℚ) : ℚ :=
  if glucose ≤ 39 / 10 then 0
  else if glucose > profile.targetGlucose ∧ pumpCurrentRate = 0 then profile.basalRate
  else if pumpCurrentRate ≠ 0 ∧ pumpCurrentRate ≠ profile.basalRate then profile.basalRate
  else pumpCurrentRate

/-- The rate the control algorithm consults and the basal rate of the pump. -/
def Device.rates (d : Device) : ℚ × ℚ := (d.currentRate, d.pump.currentBasalRate)

/-- The fresh device with the GlucoseLow and GlucoseHigh alerts active. -/
def glucoseAlertsDevice : Device :=
  { Device.init with raisedAlerts :=
      (fun t => decide (t = Alert.GLUCOSE_LOW) || decide (t = Alert.GLUCOSE_HIGH)) }

/-- Lines 115 to 133 of `Device::safetyChecks`: the battery, reserve, CGM link
and pump fault checks that run before the glucose cases. -/
def Device.alertChecks (d : Device) (inp : TickInput) : Device :=
  let d1 := if d.battery.isBatteryCritical then Alert.raise d Alert.BATTERY_LOW else d
  let d2 := if d1.insulin.isInsulinLow then Alert.raise d1 Alert.INSULIN_LOW else d1
  let c := CGMReader.isCGMConnected d2 inp.cgmErrorBox
  let d3 := if c.1 then Alert.reset c.2 Alert.CGM_DISCONNECTED
    else Alert.raise c.2 Alert.CGM_DISCONNECTED
  if !inp.pumpErrorBox then Alert.reset d3 Alert.PUMP_OCCLUSION
  else Alert.raise d3 Alert.PUMP_OCCLUSION

/-- A session from power-on: unlock, then request a bolus of 5 units at rate 60. -/
def linkLossSession : List Command :=
  [Command.power, Command.startMonitoring quietInput, Command.deliverBolus 5 60 false]

/-- A monitoring device whose reserve is low (20 units). -/
def lowReserveDevice : Device :=
  { Device.init with monitoring := true, insulin := { insulinRemaining := 20 } }

/-- Method `calculateTotalBolus`; `profile` is the active profile. -/
def BolusCalculator.calculateTotalBolus (glucose carbs target : ℚ) (profile : Profile) : ℚ :=
  BolusCalculator.calculateCarbBolus carbs profile.carbRatio profile.correctionFactor
    + BolusCalculator.calculateCorrectionBolus glucose target profile.correctionFactor

/-- Method `splitBolus`. -/
def BolusCalculator.splitBolus (total percentage : ℚ) : ℚ × ℚ :=
  if percentage < 0 ∨ percentage > 100 then (0, 0)
  else
    let immediate := (percentage / 100) * total
    (immediate, total - immediate)

/-- The fresh device with an override of 7 units installed. -/
def overriddenDevice : Device := BolusCalculator.overrideDose Device.init 7

/-- A sequence of pump calls using every kind of call and ending suspended. -/
def mixedOps : List PumpOp :=
  [PumpOp.deliverBolus 5 60 false, PumpOp.tick false, PumpOp.adjustBasalRate 1,
   PumpOp.triggerEmergencyStop, PumpOp.resumeBolus, PumpOp.tick false,
   PumpOp.deliverBolus 3 60 false, PumpOp.suspendBolus, PumpOp.tick false]

/-- The override flag and the stored override value. -/
def Device.overrideState (d : Device) : Bool × ℚ :=
  (d.bolusCalculator.doseOverridden, d.bolusCalculator.overriddenDose)

/-- Commands other than the two entry points that write the override. -/
def Command.keepsOverride : Command → Prop
  | .calculateClicked _ _ _ _ _ => False
  | .overrideConfirmClicked _ _ => False
  | _ => True

/-- A session that neither calculates nor confirms an override. -/
def overrideSession : List Command :=
  [Command.power, Command.startMonitoring quietInput, Command.tick quietInput,
   Command.cancelBolusClicked, Command.refillInsulin]

/-- The deliver request `extendedRequest` with a delay of 10 minutes. -/
def shortExtendedRequest : BolusCalculator.DeliverInput :=
  { extendedRequest with mins := 10 }

/-- A session from power-on: unlock, request an extended bolus (half now, half
in 10 minutes), then cancel the bolus. -/
def cancelSession : List Command :=
  [Command.power, Command.startMonitoring quietInput,
   Command.deliverClicked shortExtendedRequest defaultProfile, Command.cancelBolusClicked]

/-- The conditional of line 83 is the minimum of the active amount and the per-tick amount. -/
theorem deliveredThisTick_eq_min (a u : ℚ) : (if a < u then a else u) = min a u := by
  rw [min_def]
  split_ifs with h1 h2 h2
  · rfl
  · exact absurd (le_of_lt h1) h2
  · exact le_antisymm (not_lt.mp h1) h2
  · rfl

/-- The bolus block does nothing on a suspended pump or without an active bolus. -/
theorem bolusStep_skip (d : Device)
    (h : d.pump.bolusSuspended = true ∨ d.pump.activeBolusAmount ≤ 0) :
    PumpController.bolusStep d = d := by
  rcases h with h | h <;> simp [PumpController.bolusStep, h]

/-- Effect of the bolus block on a pump that is not suspended and has an active bolus. -/
theorem bolusStep_active (d : Device) (hS : d.pump.bolusSuspended = false)
    (hA : 0 < d.pump.activeBolusAmount) :
    PumpController.bolusStep d =
      { d with
        pump := { d.pump with activeBolusAmount :=
          (d.pump.activeBolusAmount
            - min d.pump.activeBolusAmount (d.pump.activeBolusRate / 12)) },
        events := d.events ++ [Event.bolusDeliveryProgress
          (d.pump.activeBolusAmount
            - min d.pump.activeBolusAmount (d.pump.activeBolusRate / 12))],
        bloodstream := { insulinOnBoard :=
          (d.bloodstream.insulinOnBoard
            + min d.pump.activeBolusAmount (d.pump.activeBolusRate / 12)) },
        insulin := (d.insulin.useInsulin
          (min d.pump.activeBolusAmount (d.pump.activeBolusRate / 12))).2 } := by
  have hA2 : ¬ d.pump.activeBolusAmount ≤ 0 := not_le.mpr hA
  simp [PumpController.bolusStep, Device.emit, hS, hA2, deliveredThisTick_eq_min,
    Bloodstream.injectUnits]

/-- With the fault box unchecked a pump tick is the bolus block followed by the basal calls. -/
theorem pump_no_fault (d : Device) :
    PumpController.pump d false = PumpController.basalStep (PumpController.bolusStep
      { d with pump := { d.pump with emergencyStopped := false } }) := by
  simp [PumpController.pump]

/-- A progress signal is not an error entry. -/
theorem isError_progress (x : ℚ) : Event.isError (Event.bolusDeliveryProgress x) = false := rfl

/-- A log entry of type Info is not an error entry. -/
theorem isError_info (t : String) (a : List ℚ) : Event.isError (Event.log "Info" t a) = false := by
  simp [Event.isError]

/-! ### Helper lemmas: what the scheduling code leaves alone -/

/-- Fields `resumeBolus` leaves alone. -/
theorem resumeBolus_frame (d : Device) :
    (PumpController.resumeBolus d).insulin = d.insulin
    ∧ (PumpController.resumeBolus d).bloodstream = d.bloodstream
    ∧ (PumpController.resumeBolus d).pump.currentBasalRate = d.pump.currentBasalRate
    ∧ (PumpController.resumeBolus d).pump.activeBolusRate = d.pump.activeBolusRate
    ∧ (PumpController.resumeBolus d).bolusCalculator = d.bolusCalculator := by
  unfold PumpController.resumeBolus
  split_ifs <;> simp [Device.logEvent, Device.emit]

/-- Fields `deliverBolus` leaves alone; the bolus rate is kept or set to the requested rate. -/
theorem deliverBolus_frame (d : Device) (amount rate : ℚ) (suppressTime : Bool) :
    (PumpController.deliverBolus d amount rate suppressTime).insulin = d.insulin
    ∧ (PumpController.deliverBolus d amount rate suppressTime).bloodstream = d.bloodstream
    ∧ (PumpController.deliverBolus d amount rate suppressTime).pump.currentBasalRate
        = d.pump.currentBasalRate
    ∧ ((PumpController.deliverBolus d amount rate suppressTime).pump.activeBolusRate
        = d.pump.activeBolusRate
      ∨ (PumpController.deliverBolus d amount rate suppressTime).pump.activeBolusRate = rate)
    ∧ (PumpController.deliverBolus d amount rate suppressTime).bolusCalculator
        = d.bolusCalculator := by
  unfold PumpController.deliverBolus
  split_ifs <;> simp [Device.logEvent, Device.emit]

/-- Fields `suspendBolus` leaves alone. -/
theorem suspendBolus_frame (d : Device) :
    (PumpController.suspendBolus d).insulin = d.insulin
    ∧ (PumpController.suspendBolus d).bloodstream = d.bloodstream
    ∧ (PumpController.suspendBolus d).pump.currentBasalRate = d.pump.currentBasalRate
    ∧ (PumpController.suspendBolus d).pump.activeBolusRate = d.pump.activeBolusRate := by
  simp [PumpController.suspendBolus, Device.logEvent, Device.emit]

/-- Fields `deliverExtendedDose` leaves alone; the bolus rate is kept or set to `bolusRate`. -/
theorem deliverExtendedDose_frame (d : Device) :
    (BolusCalculator.deliverExtendedDose d).insulin = d.insulin
    ∧ (BolusCalculator.deliverExtendedDose d).bloodstream = d.bloodstream
    ∧ (BolusCalculator.deliverExtendedDose d).pump.currentBasalRate = d.pump.currentBasalRate
    ∧ ((BolusCalculator.deliverExtendedDose d).pump.activeBolusRate = d.pump.activeBolusRate
      ∨ (BolusCalculator.deliverExtendedDose d).pump.activeBolusRate
          = BolusCalculator.bolusRate) := by
  unfold BolusCalculator.deliverExtendedDose
  split_ifs
  · have h1 := resumeBolus_frame d
    have h2 := deliverBolus_frame (PumpController.resumeBolus d)
      (PumpController.resumeBolus d).bolusCalculator.remainingExtendedDose
      BolusCalculator.bolusRate true
    simp only [Device.logEvent, Device.emit]
    refine ⟨?_, ?_, ?_, ?_⟩
    · exact h2.1.trans h1.1
    · exact h2.2.1.trans h1.2.1
    · exact h2.2.2.1.trans h1.2.2.1
    · rcases h2.2.2.2.1 with h | h
      · exact Or.inl (h.trans h1.2.2.2.1)
      · exact Or.inr h
  · simp

/-- Fields `updateCountdown` leaves alone. -/
theorem updateCountdown_frame (d : Device) :
    (BolusCalculator.updateCountdown d).insulin = d.insulin
    ∧ (BolusCalculator.updateCountdown d).bloodstream = d.bloodstream
    ∧ (BolusCalculator.updateCountdown d).pump.currentBasalRate = d.pump.currentBasalRate
    ∧ ((BolusCalculator.updateCountdown d).pump.activeBolusRate = d.pump.activeBolusRate
      ∨ (BolusCalculator.updateCountdown d).pump.activeBolusRate
          = BolusCalculator.bolusRate) := by
  unfold BolusCalculator.updateCountdown
  simp only [Device.emit]
  split_ifs
  · exact deliverExtendedDose_frame _
  · simp

/-- Fields `UserInterface::refresh` leaves alone. -/
theorem refresh_frame (d : Device) (glucose battery insulin iob : ℚ) :
    (UserInterface.refresh d glucose battery insulin iob).insulin = d.insulin
    ∧ (UserInterface.refresh d glucose battery insulin iob).bloodstream = d.bloodstream
    ∧ (UserInterface.refresh d glucose battery insulin iob).pump.currentBasalRate
        = d.pump.currentBasalRate
    ∧ ((UserInterface.refresh d glucose battery insulin iob).pump.activeBolusRate
        = d.pump.activeBolusRate
      ∨ (UserInterface.refresh d glucose battery insulin iob).pump.activeBolusRate
          = BolusCalculator.bolusRate) := by
  unfold UserInterface.refresh
  simp only [Device.emit]
  exact updateCountdown_frame _

/-- With the fault box unchecked and a sample other than -1, `Device::monitor` is the refresh of the state reached by the basal calls from `beforeBasal`. -/
theorem monitor_of_sample (d : Device) (inp : TickInput)
    (hE : inp.pumpErrorBox = false)
    (hG : (CGMReader.getCurrentGlucoseLevel d inp.profile.correctionFactor inp.random).1 ≠ -1) :
    Device.monitor d inp = UserInterface.refresh
      (((PumpController.basalStep (Device.beforeBasal d inp)).emit
          (Event.logGlucose
            (CGMReader.getCurrentGlucoseLevel d inp.profile.correctionFactor inp.random).1)).emit
          (Event.logInsulin
            (PumpController.basalStep (Device.beforeBasal d inp)).bloodstream.getIOB))
      (CGMReader.getCurrentGlucoseLevel d inp.profile.correctionFactor inp.random).1
      d.battery.getBatteryLevel
      (CGMReader.getCurrentGlucoseLevel d inp.profile.correctionFactor
        inp.random).2.insulin.getInsulinRemaining
      (PumpController.basalStep (Device.beforeBasal d inp)).bloodstream.getIOB := by
  simp only [Device.monitor, Device.pumpLogic, PumpController.pump, Device.beforeBasal, hE, hG,
    ne_eq, not_false_eq_true, if_true, if_false, Bool.false_eq_true]
  rfl

/-! ### Emergency tick (C1) -/

/-- C1: a pump tick with the fault signal asserted leaves the bloodstream, the
reserve and the active bolus amount exactly as they were (0 units injected,
0 units withdrawn), for every device state. -/
theorem pump_fault_delivers_nothing (d : Device) :
    (PumpController.pump d true).bloodstream.insulinOnBoard - d.bloodstream.insulinOnBoard = 0
    ∧ d.insulin.insulinRemaining - (PumpController.pump d true).insulin.insulinRemaining = 0
    ∧ (PumpController.pump d true).pump.activeBolusAmount = d.pump.activeBolusAmount
    ∧ (PumpController.pump d true).pump.emergencyStopped = true := by
  simp [PumpController.pump]

/-! ### Low glucose tick (C2) -/

/-- The low glucose tick on a hand-built state: a monitoring tick whose sample is
the connected reading 3.5 (target 5.5) raises GlucoseLow and sets the basal
rate to 0, but with an extended bolus of 1 unit falling due in this tick it
ends with the pump not suspended and 1 unit of bolus in flight. -/
theorem monitor_low_glucose_restarts_extended_bolus :
    (CGMReader.getCurrentGlucoseLevel extendedPendingDevice
        quietInput.profile.correctionFactor quietInput.random).1 = 7 / 2
    ∧ (Device.monitor extendedPendingDevice quietInput).raisedAlerts Alert.GLUCOSE_LOW = true
    ∧ (Device.monitor extendedPendingDevice quietInput).pump.currentBasalRate = 0
    ∧ (Device.monitor extendedPendingDevice quietInput).pump.bolusSuspended = false
    ∧ (Device.monitor extendedPendingDevice quietInput).pump.activeBolusAmount = 1 := by
  norm_num [Device.monitor, CGMReader.getCurrentGlucoseLevel, extendedPendingDevice,
    quietInput, defaultProfile, Device.safetyChecks, Device.pumpLogic,
    UserInterface.refresh, BolusCalculator.updateCountdown,
    BolusCalculator.deliverExtendedDose, Device.emit, Device.logEvent, Alert.raise, Alert.reset,
    PumpController.suspendBolus, PumpController.resumeBolus, PumpController.deliverBolus,
    PumpController.pump, PumpController.basalStep, PumpController.bolusStep,
    PumpController.adjustBasalRate, ControlIQAlgorithm.analyzeGlucoseData,
    ControlIQAlgorithm.adjustBasalRate, BolusCalculator.bolusRate,
    CGMReader.isCGMConnected, Device.init, PumpController.init,
    Bloodstream.init, Bloodstream.absorbUnits, Bloodstream.getIOB, Bloodstream.injectUnits,
    BolusCalculator.init, InsulinReserve.useInsulin, InsulinReserve.getInsulinRemaining,
    InsulinReserve.init, InsulinReserve.isInsulinLow, BatteryManager.isBatteryCritical,
    BatteryManager.init, InsulinReserve.maxAmount, InsulinReserve.lowAmount,
    BatteryManager.criticalValue, CGMReader.insulinUsageRate, CGMReader.increasePerHour,
    CGMReader.volatility, Alert.GLUCOSE_LOW, Alert.logText, Alert.BATTERY_LOW,
    Alert.INSULIN_LOW, Alert.CGM_DISCONNECTED, Alert.PUMP_OCCLUSION, Alert.GLUCOSE_HIGH]

set_option maxHeartbeats 4000000 in
set_option maxRecDepth 100000 in
/-- C2, evaluated at the failing input: after the session `lowGlucoseSession`
from the initial state the device is monitoring with a connected CGM and an
extended dose of 1.58 units due in 5 minutes.  The next tick samples the
connected reading 3.6 (below 3.9, target 5.5): it raises GlucoseLow and sets
the basal rate to 0, but it ends with the pump not suspended and 1.58 units of
bolus in flight. -/
theorem low_glucose_tick_restarts_extended_bolus :
    (Device.init.run lowGlucoseSession).monitoring = true
    ∧ (Device.init.run lowGlucoseSession).cgm.CGMConnected = true
    ∧ (Device.init.run lowGlucoseSession).bolusCalculator.remainingExtendedDose = 79 / 50
    ∧ (Device.init.run lowGlucoseSession).bolusCalculator.countdownMinutes = 5
    ∧ (CGMReader.getCurrentGlucoseLevel (Device.init.run lowGlucoseSession)
        lowInput.profile.correctionFactor lowInput.random).1 = 18 / 5
    ∧ lowInput.profile.targetGlucose = 11 / 2
    ∧ (Device.tick (Device.init.run lowGlucoseSession) lowInput).raisedAlerts
        Alert.GLUCOSE_LOW = true
    ∧ (Device.tick (Device.init.run lowGlucoseSession) lowInput).pump.currentBasalRate = 0
    ∧ (Device.tick (Device.init.run lowGlucoseSession) lowInput).pump.bolusSuspended = false
    ∧ (Device.tick (Device.init.run lowGlucoseSession) lowInput).pump.activeBolusAmount
        = 79 / 50 := by
  norm_num [Device.run, Device.exec, Device.power, Device.startMonitoring, Device.tick,
    lowGlucoseSession, lowInput, extendedRequest, Device.noPower, BatteryManager.drainBattery,
    BolusCalculator.on_btnDeliver_clicked, BolusCalculator.calculateBolus,
    BolusCalculator.calculateCarbBolus, BolusCalculator.calculateCorrectionBolus,
    BatteryManager.getBatteryLevel, Device.monitor, CGMReader.getCurrentGlucoseLevel,
    quietInput, defaultProfile, Device.safetyChecks, Device.pumpLogic,
    UserInterface.refresh, BolusCalculator.updateCountdown,
    BolusCalculator.deliverExtendedDose, Device.emit, Device.logEvent, Alert.raise, Alert.reset,
    PumpController.suspendBolus, PumpController.resumeBolus, PumpController.deliverBolus,
    PumpController.pump, PumpController.basalStep, PumpController.bolusStep,
    PumpController.adjustBasalRate, ControlIQAlgorithm.analyzeGlucoseData,
    ControlIQAlgorithm.adjustBasalRate, BolusCalculator.bolusRate,
    CGMReader.isCGMConnected, Device.init, PumpController.init, CGMReader.init,
    CGMReader.startAmount, Bloodstream.init, Bloodstream.absorbUnits, Bloodstream.getIOB,
    Bloodstream.injectUnits, BolusCalculator.init, InsulinReserve.useInsulin,
    InsulinReserve.getInsulinRemaining, InsulinReserve.init, InsulinReserve.isInsulinLow,
    BatteryManager.isBatteryCritical, BatteryManager.init, InsulinReserve.maxAmount,
    InsulinReserve.lowAmount, BatteryManager.criticalValue, CGMReader.insulinUsageRate,
    CGMReader.increasePerHour, CGMReader.volatility, Alert.GLUCOSE_LOW, Alert.logText,
    Alert.BATTERY_LOW, Alert.INSULIN_LOW, Alert.CGM_DISCONNECTED, Alert.PUMP_OCCLUSION,
    Alert.GLUCOSE_HIGH]

/-! ### Injection against the reserve (C3) -/

/-- C3, evaluated at the failing input: with an empty reserve, basal rate 0.8
and no fault, one pump tick injects 1/15 unit into the bloodstream although it
withdraws nothing from the reserve. -/
theorem pump_injects_from_empty_reserve :
    emptyReserveDevice.insulin.insulinRemaining = 0
    ∧ (PumpController.pump emptyReserveDevice false).bloodstream.insulinOnBoard
        - emptyReserveDevice.bloodstream.insulinOnBoard = 1 / 15
    ∧ emptyReserveDevice.insulin.insulinRemaining
        - (PumpController.pump emptyReserveDevice false).insulin.insulinRemaining = 0 := by
  norm_num [PumpController.pump, PumpController.basalStep, PumpController.bolusStep,
    emptyReserveDevice, Device.init, PumpController.init, Bloodstream.injectUnits,
    Bloodstream.init, InsulinReserve.useInsulin]

/-! ### Reserve and insulin on board never go negative (C4) -/

/-- The invariant only depends on the four core quantities. -/
theorem safe_of_core_eq {d e : Device} (h : e.core = d.core) (hs : d.Safe) : e.Safe := by
  simp only [Device.core, Prod.mk.injEq] at h
  obtain ⟨h1, h2, h3, h4⟩ := h
  unfold Device.Safe at *
  rw [h1, h2, h3, h4]
  exact hs

/-- Emitting an event leaves the core quantities alone. -/
theorem core_emit (d : Device) (e : Event) : (d.emit e).core = d.core := rfl

/-- `Alert::raise` leaves the core quantities alone. -/
theorem core_raise (d : Device) (t : Int) : (Alert.raise d t).core = d.core := by
  unfold Alert.raise
  split_ifs
  · cases Alert.logText t <;> rfl
  · rfl

/-- `Alert::reset` leaves the core quantities alone. -/
theorem core_reset (d : Device) (t : Int) : (Alert.reset d t).core = d.core := rfl

/-- `suspendBolus` leaves the core quantities alone. -/
theorem core_suspendBolus (d : Device) : (PumpController.suspendBolus d).core = d.core := rfl

/-- `resumeBolus` leaves the core quantities alone. -/
theorem core_resumeBolus (d : Device) : (PumpController.resumeBolus d).core = d.core := by
  unfold PumpController.resumeBolus
  split_ifs <;> rfl

/-- `isCGMConnected` leaves the core quantities alone. -/
theorem core_isCGMConnected (d : Device) (e : Bool) :
    (CGMReader.isCGMConnected d e).2.core = d.core := rfl

/-- `Device::safetyChecks` leaves the core quantities alone. -/
theorem core_safetyChecks (d : Device) (glucose target : ℚ) (inp : TickInput) :
    (Device.safetyChecks d glucose target inp).core = d.core := by
  simp only [Device.safetyChecks, apply_ite Device.core, core_raise, core_reset,
    core_suspendBolus, core_isCGMConnected, ite_self]

/-- `deliverBolus` at a non-negative rate keeps the invariant. -/
theorem safe_deliverBolus (d : Device) (amount rate : ℚ) (suppressTime : Bool)
    (hrate : 0 ≤ rate) (hs : d.Safe) :
    (PumpController.deliverBolus d amount rate suppressTime).Safe := by
  unfold PumpController.deliverBolus
  split_ifs
  · exact hs
  · exact ⟨hs.1, hs.2.1, hs.2.2.1, hrate⟩

/-- `deliverExtendedDose` keeps the invariant. -/
theorem safe_deliverExtendedDose (d : Device) (hs : d.Safe) :
    (BolusCalculator.deliverExtendedDose d).Safe := by
  unfold BolusCalculator.deliverExtendedDose
  split_ifs
  · have h1 : (PumpController.resumeBolus d).Safe := safe_of_core_eq (core_resumeBolus d) hs
    have h2 := safe_deliverBolus (PumpController.resumeBolus d)
      (PumpController.resumeBolus d).bolusCalculator.remainingExtendedDose
      BolusCalculator.bolusRate true (by norm_num [BolusCalculator.bolusRate]) h1
    exact h2
  · exact hs

/-- `updateCountdown` keeps the invariant. -/
theorem safe_updateCountdown (d : Device) (hs : d.Safe) :
    (BolusCalculator.updateCountdown d).Safe := by
  unfold BolusCalculator.updateCountdown
  simp only []
  split_ifs
  · exact safe_deliverExtendedDose _ hs
  · exact hs

/-- `UserInterface::refresh` keeps the invariant. -/
theorem safe_refresh (d : Device) (glucose battery insulin iob : ℚ) (hs : d.Safe) :
    (UserInterface.refresh d glucose battery insulin iob).Safe :=
  safe_updateCountdown _ hs

/-- The reserve is never negative after `useInsulin`. -/
theorem safe_useInsulin (r : InsulinReserve) (amount : ℚ) :
    0 ≤ (r.useInsulin amount).2.insulinRemaining := by
  unfold InsulinReserve.useInsulin
  split_ifs with h
  · simpa using h
  · simp

/-- The bolus block of a pump tick keeps the invariant. -/
theorem safe_bolusStep (d : Device) (hs : d.Safe) : (PumpController.bolusStep d).Safe := by
  by_cases h : d.pump.bolusSuspended = true ∨ d.pump.activeBolusAmount ≤ 0
  · rw [bolusStep_skip d h]; exact hs
  · have hS : d.pump.bolusSuspended = false := by
      cases hb : d.pump.bolusSuspended
      · rfl
      · exact absurd (Or.inl hb) h
    have hA : 0 < d.pump.activeBolusAmount := not_le.mp (fun hx => h (Or.inr hx))
    rw [bolusStep_active d hS hA]
    have hu : 0 ≤ d.pump.activeBolusRate / 12 := div_nonneg hs.2.2.2 (by norm_num)
    have hm : 0 ≤ min d.pump.activeBolusAmount (d.pump.activeBolusRate / 12) :=
      le_min (le_of_lt hA) hu
    exact ⟨safe_useInsulin _ _, add_nonneg hs.2.1 hm, hs.2.2.1, hs.2.2.2⟩

/-- The basal calls of a pump tick keep the invariant. -/
theorem safe_basalStep (d : Device) (hs : d.Safe) : (PumpController.basalStep d).Safe := by
  have hu : 0 ≤ d.pump.currentBasalRate / 12 := div_nonneg hs.2.2.1 (by norm_num)
  exact ⟨safe_useInsulin _ _, add_nonneg hs.2.1 hu, hs.2.2.1, hs.2.2.2⟩

/-- A pump tick keeps the invariant. -/
theorem safe_pump (d : Device) (e : Bool) (hs : d.Safe) : (PumpController.pump d e).Safe := by
  unfold PumpController.pump
  simp only []
  split_ifs
  · exact hs
  · exact safe_basalStep _ (safe_bolusStep _ hs)

/-- A glucose sample keeps the invariant. -/
theorem safe_sample (d : Device) (cf rnd : ℚ) (hs : d.Safe) :
    (CGMReader.getCurrentGlucoseLevel d cf rnd).2.Safe := by
  unfold CGMReader.getCurrentGlucoseLevel
  simp only []
  split_ifs <;>
    exact ⟨hs.1, le_max_left _ _, hs.2.2.1, hs.2.2.2⟩

/-- The control decision keeps the invariant when the profile basal rate is not negative. -/
theorem safe_analyzeGlucoseData (d : Device) (glucose : ℚ) (profile : Profile)
    (hp : 0 ≤ profile.basalRate) (hs : d.Safe) :
    (ControlIQAlgorithm.analyzeGlucoseData d glucose profile).Safe := by
  unfold ControlIQAlgorithm.analyzeGlucoseData
  simp only []
  split_ifs
  · exact ⟨hs.1, hs.2.1, le_refl _, hs.2.2.2⟩
  · exact ⟨hs.1, hs.2.1, hp, hs.2.2.2⟩
  · exact ⟨hs.1, hs.2.1, hp, hs.2.2.2⟩
  · exact hs

/-- `Device::monitor` keeps the invariant. -/
theorem safe_monitor (d : Device) (inp : TickInput) (hp : 0 ≤ inp.profile.basalRate)
    (hs : d.Safe) : (Device.monitor d inp).Safe := by
  unfold Device.monitor
  simp only []
  apply safe_refresh
  have h1 := safe_sample d inp.profile.correctionFactor inp.random hs
  have h2 := safe_of_core_eq (core_safetyChecks
    (CGMReader.getCurrentGlucoseLevel d inp.profile.correctionFactor inp.random).2
    (CGMReader.getCurrentGlucoseLevel d inp.profile.correctionFactor inp.random).1
    inp.profile.targetGlucose inp) h1
  split_ifs
  · unfold Device.pumpLogic
    exact safe_pump _ _ (safe_analyzeGlucoseData _ _ _ hp h2)
  · exact h2

/-- `Device::tick` keeps the invariant. -/
theorem safe_tick (d : Device) (inp : TickInput) (hp : 0 ≤ inp.profile.basalRate)
    (hs : d.Safe) : (Device.tick d inp).Safe := by
  unfold Device.tick
  simp only []
  split_ifs
  · exact safe_monitor _ _ hp hs
  · exact hs
  · exact safe_monitor _ _ hp hs
  · exact hs

/-- The deliver command keeps the invariant. -/
theorem safe_on_btnDeliver_clicked (d : Device) (ui : BolusCalculator.DeliverInput)
    (profile : Profile) (hs : d.Safe) :
    (BolusCalculator.on_btnDeliver_clicked d ui profile).Safe := by
  have hr : (0 : ℚ) ≤ BolusCalculator.bolusRate := by norm_num [BolusCalculator.bolusRate]
  have h1 : (PumpController.resumeBolus d).Safe := safe_of_core_eq (core_resumeBolus d) hs
  unfold BolusCalculator.on_btnDeliver_clicked
  simp only []
  split_ifs
  · exact hs
  · exact hs
  · exact hs
  · exact safe_deliverBolus
      { PumpController.resumeBolus d with bolusCalculator :=
        { (PumpController.resumeBolus d).bolusCalculator with countdownMinutes := ui.mins } }
      _ _ true hr h1
  · exact safe_deliverBolus _ _ _ true hr h1
  · exact hs

/-- Every valid command keeps the invariant. -/
theorem safe_exec (d : Device) (c : Command) (hc : c.valid) (hs : d.Safe) :
    (d.exec c).Safe := by
  cases c with
  | power =>
    show d.power.Safe
    unfold Device.power
    split_ifs <;> exact hs
  | startMonitoring inp =>
    show (d.startMonitoring inp).Safe
    unfold Device.startMonitoring
    simp only []
    split_ifs
    · exact safe_tick _ _ hc hs
    · exact hs
  | togglePaused =>
    show d.togglePaused.Safe
    unfold Device.togglePaused
    split_ifs <;> exact hs
  | tick inp => exact safe_tick _ _ hc hs
  | sample cf rnd => exact safe_sample _ _ _ hs
  | simCarbIntake carbs profile => exact hs
  | deliverBolus amount rate st => exact safe_deliverBolus _ _ _ _ hc hs
  | suspendBolus => exact safe_of_core_eq (core_suspendBolus d) hs
  | resumeBolus => exact safe_of_core_eq (core_resumeBolus d) hs
  | refillInsulin =>
    exact ⟨by norm_num [Device.exec, Device.refillInsulinReleased,
      InsulinReserve.refillInsulin, InsulinReserve.maxAmount], hs.2.1, hs.2.2.1, hs.2.2.2⟩
  | chargeBattery => exact hs
  | calculateClicked ok1 glucose ok2 carbs profile =>
    show (BolusCalculator.on_btnCalculate_clicked d ok1 glucose ok2 carbs profile).Safe
    unfold BolusCalculator.on_btnCalculate_clicked
    simp only []
    split_ifs <;> exact hs
  | overrideConfirmClicked ok dose =>
    show (BolusCalculator.on_btnOverrideConfirm_clicked d ok dose).Safe
    unfold BolusCalculator.on_btnOverrideConfirm_clicked
    split_ifs <;> exact hs
  | deliverClicked ui profile => exact safe_on_btnDeliver_clicked _ _ _ hs
  | cancelBolusClicked => exact safe_of_core_eq (core_suspendBolus d) hs

/-- Every sequence of valid commands keeps the invariant. -/
theorem safe_run (cmds : List Command) : ∀ d : Device, d.Safe →
    (∀ c ∈ cmds, c.valid) → (d.run cmds).Safe := by
  induction cmds with
  | nil => intro d hs _; exact hs
  | cons c cs ih =>
    intro d hs hv
    exact ih (d.exec c) (safe_exec d c (hv c (List.mem_cons_self _ _)) hs)
      (fun x hx => hv x (List.mem_cons_of_mem _ hx))

/-- The invariant holds in the initial state. -/
theorem safe_init : Device.init.Safe := by
  norm_num [Device.Safe, Device.init, InsulinReserve.init, InsulinReserve.maxAmount,
    Bloodstream.init, PumpController.init]

/-- C4: in every state reached from the initial device state (reserve 300, IOB 0)
by a sequence of commands (ticks, glucose samples, bolus deliveries, suspends,
resumes, refills and the other user commands) in which every profile basal
rate and every requested bolus rate is non-negative, the reserve level and the
insulin on board are non-negative. -/
theorem reachable_reserve_iob_nonneg (cmds : List Command) (hv : ∀ c ∈ cmds, c.valid) :
    0 ≤ (Device.init.run cmds).insulin.insulinRemaining
    ∧ 0 ≤ (Device.init.run cmds).bloodstream.insulinOnBoard :=
  ⟨(safe_run cmds Device.init safe_init hv).1, (safe_run cmds Device.init safe_init hv).2.1⟩

/-- Witness of C4 on a session that uses every kind of step. -/
theorem reachable_reserve_iob_nonneg_witness :
    0 ≤ (Device.init.run sampleSession).insulin.insulinRemaining
    ∧ 0 ≤ (Device.init.run sampleSession).bloodstream.insulinOnBoard :=
  reachable_reserve_iob_nonneg sampleSession (by
    norm_num [sampleSession, Command.valid, quietInput, defaultProfile])

/-! ### Withdrawal from the reserve (C5) -/

/-- C5: for every reserve and every requested amount, `useInsulin` returns
`min requested remaining`; the returned amount is at most the request and at
most the level before the call, and the level afterwards is the level before
minus the returned amount. -/
theorem useInsulin_delivers_min (r : InsulinReserve) (requested : ℚ) :
    (r.useInsulin requested).1 = min requested r.insulinRemaining
    ∧ (r.useInsulin requested).1 ≤ requested
    ∧ (r.useInsulin requested).1 ≤ r.insulinRemaining
    ∧ (r.useInsulin requested).2.insulinRemaining
        = r.insulinRemaining - (r.useInsulin requested).1 := by
  unfold InsulinReserve.useInsulin
  split_ifs with h
  · simp [min_eq_left h, h]
  · have h2 : r.insulinRemaining ≤ requested := le_of_lt (not_le.mp h)
    simp [min_eq_right h2, h2]

/-! ### Requesting a bolus (C6, C7) -/

/-- C6: `deliverBolus` on a pump that is suspended or in emergency changes
nothing in the device (pump fields, reserve, bloodstream, flags) except that
one "Bolus blocked" error entry is appended to the log. -/
theorem deliverBolus_blocked (d : Device) (amount rate : ℚ) (suppressTime : Bool)
    (h : d.pump.bolusSuspended = true ∨ d.pump.emergencyStopped = true) :
    PumpController.deliverBolus d amount rate suppressTime
      = { d with events := d.events
            ++ [Event.log "Error" "Bolus blocked due to unsafe condition." []] } := by
  rcases h with h | h <;> simp [PumpController.deliverBolus, Device.logEvent, Device.emit, h]

/-- Witness of C6: a bolus of 5 units at rate 60 requested from a suspended pump. -/
theorem deliverBolus_blocked_witness :
    PumpController.deliverBolus suspendedDevice 5 60 false
      = { suspendedDevice with events := suspendedDevice.events
            ++ [Event.log "Error" "Bolus blocked due to unsafe condition." []] } :=
  deliverBolus_blocked suspendedDevice 5 60 false (Or.inl rfl)

/-- C7: `deliverBolus` on a pump that is neither suspended nor in emergency
records the active bolus as `min amount remaining` at the given rate and
leaves the reserve, the bloodstream, the basal rate and both flags as they
were. -/
theorem deliverBolus_accepted (d : Device) (amount rate : ℚ) (suppressTime : Bool)
    (hS : d.pump.bolusSuspended = false) (hE : d.pump.emergencyStopped = false) :
    (PumpController.deliverBolus d amount rate suppressTime).pump.activeBolusAmount
        = min amount d.insulin.insulinRemaining
    ∧ (PumpController.deliverBolus d amount rate suppressTime).pump.activeBolusRate = rate
    ∧ (PumpController.deliverBolus d amount rate suppressTime).insulin = d.insulin
    ∧ (PumpController.deliverBolus d amount rate suppressTime).bloodstream = d.bloodstream
    ∧ (PumpController.deliverBolus d amount rate suppressTime).pump.currentBasalRate
        = d.pump.currentBasalRate
    ∧ (PumpController.deliverBolus d amount rate suppressTime).pump.bolusSuspended = false
    ∧ (PumpController.deliverBolus d amount rate suppressTime).pump.emergencyStopped = false := by
  simp [PumpController.deliverBolus, Device.logEvent, Device.emit, hS, hE,
    InsulinReserve.getInsulinRemaining, min_comm]

/-- Witness of C7: a bolus of 5 units at rate 60 requested over a reserve of 2 units. -/
theorem deliverBolus_accepted_witness :
    (PumpController.deliverBolus twoUnitDevice 5 60 false).pump.activeBolusAmount
        = min 5 twoUnitDevice.insulin.insulinRemaining
    ∧ (PumpController.deliverBolus twoUnitDevice 5 60 false).pump.activeBolusRate = 60
    ∧ (PumpController.deliverBolus twoUnitDevice 5 60 false).insulin = twoUnitDevice.insulin
    ∧ (PumpController.deliverBolus twoUnitDevice 5 60 false).bloodstream
        = twoUnitDevice.bloodstream
    ∧ (PumpController.deliverBolus twoUnitDevice 5 60 false).pump.currentBasalRate
        = twoUnitDevice.pump.currentBasalRate
    ∧ (PumpController.deliverBolus twoUnitDevice 5 60 false).pump.bolusSuspended = false
    ∧ (PumpController.deliverBolus twoUnitDevice 5 60 false).pump.emergencyStopped = false :=
  deliverBolus_accepted twoUnitDevice 5 60 false rfl rfl

/-! ### A bolus followed by ticks (C8) -/

/-- One pump tick with basal rate 0 on a pump that is not suspended and whose active bolus is covered by the reserve. -/
theorem pump_bolus_only (d : Device) (hb : d.pump.currentBasalRate = 0)
    (hS : d.pump.bolusSuspended = false) (ha : 0 ≤ d.pump.activeBolusAmount)
    (hr : d.pump.activeBolusAmount ≤ d.insulin.insulinRemaining)
    (hrate : 0 < d.pump.activeBolusRate) :
    (PumpController.pump d false).bloodstream.insulinOnBoard
        = d.bloodstream.insulinOnBoard
          + min d.pump.activeBolusAmount (d.pump.activeBolusRate / 12)
    ∧ (PumpController.pump d false).insulin.insulinRemaining
        = d.insulin.insulinRemaining
          - min d.pump.activeBolusAmount (d.pump.activeBolusRate / 12)
    ∧ (PumpController.pump d false).pump.activeBolusAmount
        = d.pump.activeBolusAmount
          - min d.pump.activeBolusAmount (d.pump.activeBolusRate / 12)
    ∧ (PumpController.pump d false).pump.currentBasalRate = 0
    ∧ (PumpController.pump d false).pump.bolusSuspended = false
    ∧ (PumpController.pump d false).pump.activeBolusRate = d.pump.activeBolusRate
    ∧ (PumpController.pump d false).events.filter Event.isError
        = d.events.filter Event.isError := by
  have hu : 0 < d.pump.activeBolusRate / 12 := by positivity
  have hr0 : (0 : ℚ) ≤ d.insulin.insulinRemaining := le_trans ha hr
  rw [pump_no_fault]
  rcases eq_or_lt_of_le ha with h0 | hpos
  · have hskip := bolusStep_skip { d with pump := { d.pump with emergencyStopped := false } }
      (Or.inr (le_of_eq h0.symm))
    rw [hskip]
    have hm : min d.pump.activeBolusAmount (d.pump.activeBolusRate / 12) = 0 := by
      rw [← h0]; exact min_eq_left (le_of_lt hu)
    rw [hm]
    simp [PumpController.basalStep, hb, hS, Bloodstream.injectUnits,
      InsulinReserve.useInsulin, hr0]
  · have hact := bolusStep_active { d with pump := { d.pump with emergencyStopped := false } }
      hS hpos
    rw [hact]
    have hm1 : min d.pump.activeBolusAmount (d.pump.activeBolusRate / 12)
        ≤ d.insulin.insulinRemaining := le_trans (min_le_left _ _) hr
    simp [PumpController.basalStep, hb, hS, Bloodstream.injectUnits,
      InsulinReserve.useInsulin, hm1, List.filter_append, isError_progress]

/-- Arithmetic of the running total: one more tick of `u` units. -/
theorem min_step (a u : ℚ) (n : ℕ) (hu : 0 < u) :
    min a u + min (a - min a u) ((n : ℚ) * u) = min a (((n + 1 : ℕ) : ℚ) * u) := by
  have hn : (0 : ℚ) ≤ (n : ℚ) * u := by positivity
  push_cast
  rcases le_total a u with h | h
  · rw [min_eq_left h, sub_self, min_eq_left hn, add_zero, min_eq_left]
    nlinarith
  · rw [min_eq_right h]
    rcases le_total (a - u) ((n : ℚ) * u) with h2 | h2
    · rw [min_eq_left h2, min_eq_left (by linarith)]
      ring
    · rw [min_eq_right h2, min_eq_right (by linarith)]
      ring

/-- Closed form of `n` pump ticks with basal rate 0 on a pump that is not suspended and whose active bolus is covered by the reserve. -/
theorem pumpTicks_bolus_only (n : ℕ) : ∀ d : Device, d.pump.currentBasalRate = 0 →
    d.pump.bolusSuspended = false → 0 ≤ d.pump.activeBolusAmount →
    d.pump.activeBolusAmount ≤ d.insulin.insulinRemaining → 0 < d.pump.activeBolusRate →
    (PumpController.pumpTicks n d).bloodstream.insulinOnBoard
        = d.bloodstream.insulinOnBoard
          + min d.pump.activeBolusAmount ((n : ℚ) * (d.pump.activeBolusRate / 12))
    ∧ (PumpController.pumpTicks n d).insulin.insulinRemaining
        = d.insulin.insulinRemaining
          - min d.pump.activeBolusAmount ((n : ℚ) * (d.pump.activeBolusRate / 12))
    ∧ (PumpController.pumpTicks n d).pump.activeBolusAmount
        = d.pump.activeBolusAmount
          - min d.pump.activeBolusAmount ((n : ℚ) * (d.pump.activeBolusRate / 12))
    ∧ (PumpController.pumpTicks n d).events.filter Event.isError
        = d.events.filter Event.isError := by
  induction n with
  | zero =>
    intro d _ _ ha _ _
    simp [PumpController.pumpTicks, min_eq_right ha]
  | succ n ih =>
    intro d hb hS ha hr hrate
    have hu : 0 < d.pump.activeBolusRate / 12 := by positivity
    obtain ⟨p1, p2, p3, p4, p5, p6, p7⟩ := pump_bolus_only d hb hS ha hr hrate
    have ha2 : 0 ≤ (PumpController.pump d false).pump.activeBolusAmount := by
      rw [p3]; linarith [min_le_left d.pump.activeBolusAmount (d.pump.activeBolusRate / 12)]
    have hr2 : (PumpController.pump d false).pump.activeBolusAmount
        ≤ (PumpController.pump d false).insulin.insulinRemaining := by
      rw [p3, p2]; linarith
    have hrate2 : 0 < (PumpController.pump d false).pump.activeBolusRate := by
      rw [p6]; exact hrate
    obtain ⟨q1, q2, q3, q4⟩ := ih (PumpController.pump d false) p4 p5 ha2 hr2 hrate2
    have key := min_step d.pump.activeBolusAmount (d.pump.activeBolusRate / 12) n hu
    simp only [PumpController.pumpTicks]
    rw [q1, q2, q3, q4, p1, p2, p3, p6, p7, ← key]
    refine ⟨by ring, by ring, by ring, rfl⟩

/-- C8: on a pump with basal rate 0 that is neither suspended nor in emergency,
with reserve r >= 0, requested amount a >= 0 and rate > 0, `deliverBolus(a, rate)`
followed by n pump ticks with the fault signal off has injected min(a, r, n*rate/12)
units in total, has taken the same amount from the reserve and leaves
min(a, r) minus that total as active bolus, without logging any error entry;
and from some tick count on the total is exactly min(a, r), the active bolus
is 0 and the reserve is r - min(a, r). -/
theorem deliverBolus_then_ticks (d : Device) (a rate : ℚ) (suppressTime : Bool) (n : ℕ)
    (hr : 0 ≤ d.insulin.insulinRemaining) (ha : 0 ≤ a) (hrate : 0 < rate)
    (hb : d.pump.currentBasalRate = 0) (hS : d.pump.bolusSuspended = false)
    (hE : d.pump.emergencyStopped = false) :
    (PumpController.pumpTicks n
        (PumpController.deliverBolus d a rate suppressTime)).bloodstream.insulinOnBoard
      = d.bloodstream.insulinOnBoard
        + min (min a d.insulin.insulinRemaining) ((n : ℚ) * rate / 12)
    ∧ (PumpController.pumpTicks n
        (PumpController.deliverBolus d a rate suppressTime)).insulin.insulinRemaining
      = d.insulin.insulinRemaining
        - min (min a d.insulin.insulinRemaining) ((n : ℚ) * rate / 12)
    ∧ (PumpController.pumpTicks n
        (PumpController.deliverBolus d a rate suppressTime)).pump.activeBolusAmount
      = min a d.insulin.insulinRemaining
        - min (min a d.insulin.insulinRemaining) ((n : ℚ) * rate / 12)
    ∧ (PumpController.pumpTicks n
        (PumpController.deliverBolus d a rate suppressTime)).events.filter Event.isError
      = d.events.filter Event.isError
    ∧ ∃ N : ℕ, ∀ m : ℕ, N ≤ m →
        (PumpController.pumpTicks m
            (PumpController.deliverBolus d a rate suppressTime)).bloodstream.insulinOnBoard
          = d.bloodstream.insulinOnBoard + min a d.insulin.insulinRemaining
        ∧ (PumpController.pumpTicks m
            (PumpController.deliverBolus d a rate suppressTime)).pump.activeBolusAmount = 0
        ∧ (PumpController.pumpTicks m
            (PumpController.deliverBolus d a rate suppressTime)).insulin.insulinRemaining
          = d.insulin.insulinRemaining - min a d.insulin.insulinRemaining := by
  have e1 : (PumpController.deliverBolus d a rate suppressTime).pump.activeBolusAmount
      = min a d.insulin.insulinRemaining := by
    simp [PumpController.deliverBolus, Device.logEvent, Device.emit, hS, hE,
      InsulinReserve.getInsulinRemaining, min_comm]
  have e2 : (PumpController.deliverBolus d a rate suppressTime).pump.activeBolusRate = rate := by
    simp [PumpController.deliverBolus, Device.logEvent, Device.emit, hS, hE]
  have e3 : (PumpController.deliverBolus d a rate suppressTime).insulin = d.insulin := by
    simp [PumpController.deliverBolus, Device.logEvent, Device.emit, hS, hE]
  have e4 : (PumpController.deliverBolus d a rate suppressTime).bloodstream = d.bloodstream := by
    simp [PumpController.deliverBolus, Device.logEvent, Device.emit, hS, hE]
  have e5 : (PumpController.deliverBolus d a rate suppressTime).pump.currentBasalRate = 0 := by
    simp [PumpController.deliverBolus, Device.logEvent, Device.emit, hS, hE, hb]
  have e6 : (PumpController.deliverBolus d a rate suppressTime).pump.bolusSuspended = false := by
    simp [PumpController.deliverBolus, Device.logEvent, Device.emit, hS, hE]
  have e7 : (PumpController.deliverBolus d a rate suppressTime).events.filter Event.isError
      = d.events.filter Event.isError := by
    simp [PumpController.deliverBolus, Device.logEvent, Device.emit, hS, hE,
      List.filter_append, isError_info]
  have hA : 0 ≤ (PumpController.deliverBolus d a rate suppressTime).pump.activeBolusAmount := by
    rw [e1]; exact le_min ha hr
  have hR : (PumpController.deliverBolus d a rate suppressTime).pump.activeBolusAmount
      ≤ (PumpController.deliverBolus d a rate suppressTime).insulin.insulinRemaining := by
    rw [e1, e3]; exact min_le_right _ _
  have hRate : 0 < (PumpController.deliverBolus d a rate suppressTime).pump.activeBolusRate := by
    rw [e2]; exact hrate
  have main := fun k : ℕ => pumpTicks_bolus_only k
    (PumpController.deliverBolus d a rate suppressTime) e5 e6 hA hR hRate
  simp only [e1, e2, e3, e4, e7] at main
  have hform : ∀ k : ℕ, (k : ℚ) * (rate / 12) = (k : ℚ) * rate / 12 := fun k => by ring
  refine ⟨?_, ?_, ?_, ?_, ?_⟩
  · rw [(main n).1, hform]
  · rw [(main n).2.1, hform]
  · rw [(main n).2.2.1, hform]
  · exact (main n).2.2.2
  · obtain ⟨N, hN⟩ := exists_nat_ge (min a d.insulin.insulinRemaining / (rate / 12))
    refine ⟨N, fun m hm => ?_⟩
    have hu : 0 < rate / 12 := by positivity
    have hmN : (N : ℚ) ≤ (m : ℚ) := by exact_mod_cast hm
    have hle : min a d.insulin.insulinRemaining ≤ (m : ℚ) * (rate / 12) := by
      have := (div_le_iff₀ hu).mp (le_trans hN hmN)
      exact this
    rw [(main m).1, (main m).2.1, (main m).2.2.1, min_eq_left hle]
    exact ⟨rfl, sub_self _, rfl⟩

/-- Witness of C8: reserve 2, `deliverBolus(5, 60)`, three ticks deliver exactly 2 units and leave the reserve at 0 with no error entry. -/
theorem deliverBolus_then_ticks_witness :
    (PumpController.pumpTicks 3
        (PumpController.deliverBolus twoUnitDevice 5 60 false)).bloodstream.insulinOnBoard = 2
    ∧ (PumpController.pumpTicks 3
        (PumpController.deliverBolus twoUnitDevice 5 60 false)).insulin.insulinRemaining = 0
    ∧ (PumpController.pumpTicks 3
        (PumpController.deliverBolus twoUnitDevice 5 60 false)).pump.activeBolusAmount = 0
    ∧ (PumpController.pumpTicks 3
        (PumpController.deliverBolus twoUnitDevice 5 60 false)).events.filter Event.isError
      = [] := by
  have h := deliverBolus_then_ticks twoUnitDevice 5 60 false 3
    (by norm_num [twoUnitDevice]) (by norm_num) (by norm_num) rfl rfl rfl
  exact ⟨h.1.trans (by norm_num [twoUnitDevice, Device.init, Bloodstream.init]),
    h.2.1.trans (by norm_num [twoUnitDevice]),
    h.2.2.1.trans (by norm_num [twoUnitDevice]),
    h.2.2.2.1.trans (by simp [twoUnitDevice, Device.init])⟩

/-! ### Bolus fraction of a tick (C9) -/

/-- C9, counterexample: on a pump that is not suspended, with 1/6 unit of bolus
left at rate 10, basal rate 0 and a reserve holding 1/10 unit, the tick
delivers deliveredThisTick = 1/6 but only 1/10 unit leaves the reserve, so
deliveredThisTick is not withdrawn from the reserve. -/
theorem pump_bolus_withdrawal_counterexample :
    shortReserveDevice.pump.bolusSuspended = false
    ∧ 0 < shortReserveDevice.pump.activeBolusAmount
    ∧ min shortReserveDevice.pump.activeBolusAmount
        (shortReserveDevice.pump.activeBolusRate / 12) = 1 / 6
    ∧ shortReserveDevice.insulin.insulinRemaining
        - (PumpController.pump shortReserveDevice false).insulin.insulinRemaining = 1 / 10
    ∧ ¬ (shortReserveDevice.insulin.insulinRemaining
          - (PumpController.pump shortReserveDevice false).insulin.insulinRemaining
        = min shortReserveDevice.pump.activeBolusAmount
            (shortReserveDevice.pump.activeBolusRate / 12)
          + shortReserveDevice.pump.currentBasalRate / 12) := by
  norm_num [PumpController.pump, PumpController.basalStep, PumpController.bolusStep,
    shortReserveDevice, Device.init, PumpController.init, Bloodstream.injectUnits,
    Bloodstream.init, InsulinReserve.useInsulin, Device.emit]

/-- C9, amended: on a pump tick with no fault signal, if the pump is not
suspended and the active amount is positive then, with deliveredThisTick =
min(amount, rate/12), the active amount decreases by exactly deliveredThisTick,
one progress event carrying the new remaining amount is emitted, and whenever
the reserve holds at least deliveredThisTick that amount is injected into the
bloodstream (on top of the basal share) and withdrawn from the reserve before
the basal withdrawal; otherwise the bolus amount is unchanged, no event is
emitted and only the basal share is injected and requested from the reserve. -/
theorem pump_bolus_step (d : Device) :
    (d.pump.bolusSuspended = false ∧ 0 < d.pump.activeBolusAmount →
      (PumpController.pump d false).pump.activeBolusAmount
          = d.pump.activeBolusAmount
            - min d.pump.activeBolusAmount (d.pump.activeBolusRate / 12)
      ∧ (PumpController.pump d false).events
          = d.events ++ [Event.bolusDeliveryProgress
              (d.pump.activeBolusAmount
                - min d.pump.activeBolusAmount (d.pump.activeBolusRate / 12))]
      ∧ (min d.pump.activeBolusAmount (d.pump.activeBolusRate / 12)
            ≤ d.insulin.insulinRemaining →
          (PumpController.pump d false).bloodstream.insulinOnBoard
            = d.bloodstream.insulinOnBoard
              + min d.pump.activeBolusAmount (d.pump.activeBolusRate / 12)
              + d.pump.currentBasalRate / 12
          ∧ (PumpController.pump d false).insulin
            = (InsulinReserve.useInsulin
                { insulinRemaining := d.insulin.insulinRemaining
                    - min d.pump.activeBolusAmount (d.pump.activeBolusRate / 12) }
                (d.pump.currentBasalRate / 12)).2))
    ∧ (¬ (d.pump.bolusSuspended = false ∧ 0 < d.pump.activeBolusAmount) →
      (PumpController.pump d false).pump.activeBolusAmount = d.pump.activeBolusAmount
      ∧ (PumpController.pump d false).events = d.events
      ∧ (PumpController.pump d false).bloodstream.insulinOnBoard
          = d.bloodstream.insulinOnBoard + d.pump.currentBasalRate / 12
      ∧ (PumpController.pump d false).insulin
          = (d.insulin.useInsulin (d.pump.currentBasalRate / 12)).2) := by
  constructor
  · rintro ⟨hS, hA⟩
    have hb := bolusStep_active
      { d with pump := { d.pump with emergencyStopped := false } } hS hA
    refine ⟨?_, ?_, ?_⟩
    · simp [PumpController.pump, PumpController.basalStep, hb]
    · simp [PumpController.pump, PumpController.basalStep, hb]
    · intro hR
      simp [PumpController.pump, PumpController.basalStep, hb, Bloodstream.injectUnits,
        InsulinReserve.useInsulin, hR]
  · intro h
    have h2 : d.pump.bolusSuspended = true ∨ d.pump.activeBolusAmount ≤ 0 := by
      by_cases hS : d.pump.bolusSuspended = true
      · exact Or.inl hS
      · right
        have hS2 : d.pump.bolusSuspended = false := by simpa using hS
        exact not_lt.mp (fun hA => h ⟨hS2, hA⟩)
    have hb := bolusStep_skip
      { d with pump := { d.pump with emergencyStopped := false } } h2
    simp [PumpController.pump, PumpController.basalStep, hb, Bloodstream.injectUnits]

/-- Witness of C9 amended: a tick with 5 units in flight at rate 60 over a full
reserve, and a tick on a suspended pump. -/
theorem pump_bolus_step_witness :
    ((PumpController.pump bolusDevice false).pump.activeBolusAmount
          = bolusDevice.pump.activeBolusAmount
            - min bolusDevice.pump.activeBolusAmount (bolusDevice.pump.activeBolusRate / 12)
      ∧ (PumpController.pump bolusDevice false).events
          = bolusDevice.events ++ [Event.bolusDeliveryProgress
              (bolusDevice.pump.activeBolusAmount
                - min bolusDevice.pump.activeBolusAmount (bolusDevice.pump.activeBolusRate / 12))]
      ∧ (PumpController.pump bolusDevice false).bloodstream.insulinOnBoard
            = bolusDevice.bloodstream.insulinOnBoard
              + min bolusDevice.pump.activeBolusAmount (bolusDevice.pump.activeBolusRate / 12)
              + bolusDevice.pump.currentBasalRate / 12
      ∧ (PumpController.pump bolusDevice false).insulin
            = (InsulinReserve.useInsulin
                { insulinRemaining := bolusDevice.insulin.insulinRemaining
                    - min bolusDevice.pump.activeBolusAmount
                        (bolusDevice.pump.activeBolusRate / 12) }
                (bolusDevice.pump.currentBasalRate / 12)).2)
    ∧ ((PumpController.pump suspendedDevice false).pump.activeBolusAmount
          = suspendedDevice.pump.activeBolusAmount
      ∧ (PumpController.pump suspendedDevice false).events = suspendedDevice.events
      ∧ (PumpController.pump suspendedDevice false).bloodstream.insulinOnBoard
          = suspendedDevice.bloodstream.insulinOnBoard + suspendedDevice.pump.currentBasalRate / 12
      ∧ (PumpController.pump suspendedDevice false).insulin
          = (suspendedDevice.insulin.useInsulin (suspendedDevice.pump.currentBasalRate / 12)).2) :=
  have h := (pump_bolus_step bolusDevice).1
    ⟨rfl, by norm_num [bolusDevice, PumpController.init, Device.init]⟩
  ⟨⟨h.1, h.2.1, h.2.2 (by norm_num [bolusDevice, PumpController.init, Device.init,
      InsulinReserve.init, InsulinReserve.maxAmount])⟩,
   (pump_bolus_step suspendedDevice).2 (by simp [suspendedDevice])⟩

/-! ### Basal delivery in a monitoring tick (C10) -/

/-- C10, counterexample: a monitoring tick on a device whose CGM link is
disconnected, with the fault box of the pump unchecked (no emergency) and a
basal rate of 0.8, injects nothing into the bloodstream and withdraws nothing
from the reserve although basalRate/12 = 1/15. -/
theorem monitor_disconnected_no_basal :
    (Device.monitor disconnectedDevice disconnectedInput).pump.emergencyStopped = false
    ∧ disconnectedInput.pumpErrorBox = false
    ∧ (Device.monitor disconnectedDevice disconnectedInput).pump.currentBasalRate / 12 = 1 / 15
    ∧ (Device.monitor disconnectedDevice disconnectedInput).bloodstream.insulinOnBoard
        = disconnectedDevice.bloodstream.insulinOnBoard
    ∧ (Device.monitor disconnectedDevice disconnectedInput).insulin.insulinRemaining
        = disconnectedDevice.insulin.insulinRemaining := by
  norm_num [Device.monitor, CGMReader.getCurrentGlucoseLevel, disconnectedDevice,
    disconnectedInput, quietInput, defaultProfile, Device.safetyChecks, Device.pumpLogic,
    UserInterface.refresh, BolusCalculator.updateCountdown,
    BolusCalculator.deliverExtendedDose, Device.emit, Device.logEvent, Alert.raise, Alert.reset,
    PumpController.suspendBolus, PumpController.resumeBolus, PumpController.deliverBolus,
    PumpController.pump, PumpController.basalStep, PumpController.bolusStep,
    PumpController.adjustBasalRate, ControlIQAlgorithm.analyzeGlucoseData,
    ControlIQAlgorithm.adjustBasalRate, BolusCalculator.bolusRate,
    CGMReader.isCGMConnected, Device.init, PumpController.init,
    Bloodstream.init, Bloodstream.absorbUnits, Bloodstream.getIOB, Bloodstream.injectUnits,
    BolusCalculator.init, InsulinReserve.useInsulin, InsulinReserve.getInsulinRemaining,
    InsulinReserve.init, InsulinReserve.isInsulinLow, BatteryManager.isBatteryCritical,
    BatteryManager.init, InsulinReserve.maxAmount, InsulinReserve.lowAmount,
    BatteryManager.criticalValue, CGMReader.insulinUsageRate, CGMReader.increasePerHour,
    CGMReader.volatility, Alert.GLUCOSE_LOW, Alert.logText, Alert.BATTERY_LOW,
    Alert.INSULIN_LOW, Alert.CGM_DISCONNECTED, Alert.PUMP_OCCLUSION, Alert.GLUCOSE_HIGH]

/-- C10, amended: in every monitoring tick in which the pump fault signal is
off and the glucose sample is not the disconnected sentinel -1, whatever the
bolus state and the suspended flag: the basal rate used is the one the tick
ends with, and whenever the reserve still holds basalRate/12 at that point,
basalRate/12 units are injected into the bloodstream and the same amount is
withdrawn from the reserve, on top of the state reached after the bolus
fraction of the tick. -/
theorem monitor_basal_delivery (d : Device) (inp : TickInput)
    (hE : inp.pumpErrorBox = false)
    (hG : (CGMReader.getCurrentGlucoseLevel d inp.profile.correctionFactor inp.random).1 ≠ -1) :
    (Device.monitor d inp).pump.currentBasalRate
        = (Device.beforeBasal d inp).pump.currentBasalRate
    ∧ ((Device.beforeBasal d inp).pump.currentBasalRate / 12
          ≤ (Device.beforeBasal d inp).insulin.insulinRemaining →
        (Device.monitor d inp).bloodstream.insulinOnBoard
          = (Device.beforeBasal d inp).bloodstream.insulinOnBoard
            + (Device.monitor d inp).pump.currentBasalRate / 12
        ∧ (Device.monitor d inp).insulin.insulinRemaining
          = (Device.beforeBasal d inp).insulin.insulinRemaining
            - (Device.monitor d inp).pump.currentBasalRate / 12) := by
  rw [monitor_of_sample d inp hE hG]
  have hf := refresh_frame
    (((PumpController.basalStep (Device.beforeBasal d inp)).emit
          (Event.logGlucose
            (CGMReader.getCurrentGlucoseLevel d inp.profile.correctionFactor inp.random).1)).emit
          (Event.logInsulin
            (PumpController.basalStep (Device.beforeBasal d inp)).bloodstream.getIOB))
      (CGMReader.getCurrentGlucoseLevel d inp.profile.correctionFactor inp.random).1
      d.battery.getBatteryLevel
      (CGMReader.getCurrentGlucoseLevel d inp.profile.correctionFactor
        inp.random).2.insulin.getInsulinRemaining
      (PumpController.basalStep (Device.beforeBasal d inp)).bloodstream.getIOB
  rw [hf.1, hf.2.1, hf.2.2.1]
  refine ⟨by simp [Device.emit, PumpController.basalStep], ?_⟩
  intro hR
  simp [Device.emit, PumpController.basalStep, Bloodstream.injectUnits,
    InsulinReserve.useInsulin, hR]

/-- Witness of C10 amended: the first monitoring tick of a fresh device under quiet inputs. -/
theorem monitor_basal_delivery_witness :
    (Device.monitor monitoringDevice quietInput).pump.currentBasalRate
        = (Device.beforeBasal monitoringDevice quietInput).pump.currentBasalRate
    ∧ (Device.monitor monitoringDevice quietInput).bloodstream.insulinOnBoard
          = (Device.beforeBasal monitoringDevice quietInput).bloodstream.insulinOnBoard
            + (Device.monitor monitoringDevice quietInput).pump.currentBasalRate / 12
    ∧ (Device.monitor monitoringDevice quietInput).insulin.insulinRemaining
          = (Device.beforeBasal monitoringDevice quietInput).insulin.insulinRemaining
            - (Device.monitor monitoringDevice quietInput).pump.currentBasalRate / 12 :=
  have h := monitor_basal_delivery monitoringDevice quietInput rfl
    (by norm_num [CGMReader.getCurrentGlucoseLevel, monitoringDevice, quietInput,
      defaultProfile, Device.init, CGMReader.init, CGMReader.startAmount,
      CGMReader.increasePerHour, CGMReader.volatility, CGMReader.insulinUsageRate,
      Bloodstream.init, Bloodstream.getIOB])
  ⟨h.1, h.2 (by
    norm_num [Device.beforeBasal, CGMReader.getCurrentGlucoseLevel, monitoringDevice,
      quietInput, defaultProfile, Device.safetyChecks,
      Device.emit, Device.logEvent, Alert.raise, Alert.reset,
      PumpController.suspendBolus, PumpController.bolusStep,
      PumpController.adjustBasalRate, ControlIQAlgorithm.analyzeGlucoseData,
      ControlIQAlgorithm.adjustBasalRate,
      CGMReader.isCGMConnected, Device.init, PumpController.init, CGMReader.init,
      CGMReader.startAmount,
      Bloodstream.init, Bloodstream.absorbUnits, Bloodstream.getIOB, Bloodstream.injectUnits,
      BolusCalculator.init, InsulinReserve.useInsulin, InsulinReserve.getInsulinRemaining,
      InsulinReserve.init, InsulinReserve.isInsulinLow, BatteryManager.isBatteryCritical,
      BatteryManager.init, InsulinReserve.maxAmount, InsulinReserve.lowAmount,
      BatteryManager.criticalValue, CGMReader.insulinUsageRate, CGMReader.increasePerHour,
      CGMReader.volatility, Alert.GLUCOSE_LOW, Alert.logText, Alert.BATTERY_LOW,
      Alert.INSULIN_LOW, Alert.CGM_DISCONNECTED, Alert.PUMP_OCCLUSION, Alert.GLUCOSE_HIGH])⟩

/-! ### Suspend and resume (C11, C12) -/

/-- C11: for every device state `suspendBolus` sets the suspended flag, zeroes
the active bolus amount and emits a cancellation signal (and a warning log
entry) carrying the amount that was still undelivered before the call; every
other field, in particular `emergencyStopped`, the basal rate, the reserve and
the bloodstream, is unchanged. -/
theorem suspendBolus_spec (d : Device) :
    PumpController.suspendBolus d
      = { d with
          pump := { d.pump with bolusSuspended := true, activeBolusAmount := 0 },
          events := d.events
            ++ [Event.bolusCancelled d.pump.activeBolusAmount,
                Event.log "Warning" "Bolus cancelled with %1 units remaining to deliver"
                  [d.pump.activeBolusAmount]] } := by
  simp [PumpController.suspendBolus, Device.logEvent, Device.emit]

/-- C12: when the pump is not in emergency `resumeBolus` clears the suspended
flag (and logs the resumption) and changes nothing else; when it is in
emergency the call changes no state at all; so the flag afterwards is
`emergencyStopped && bolusSuspended`.  In both cases the active bolus amount
is left as it was, so an amount zeroed by a suspend stays 0. -/
theorem resumeBolus_spec (d : Device) :
    (d.pump.emergencyStopped = false →
      PumpController.resumeBolus d
        = { d with pump := { d.pump with bolusSuspended := false },
                   events := d.events ++ [Event.log "Info" "Bolus delivery resumed." []] })
    ∧ (d.pump.emergencyStopped = true → PumpController.resumeBolus d = d)
    ∧ (PumpController.resumeBolus d).pump.bolusSuspended
        = (d.pump.emergencyStopped && d.pump.bolusSuspended)
    ∧ (PumpController.resumeBolus d).pump.activeBolusAmount = d.pump.activeBolusAmount
    ∧ (PumpController.resumeBolus (PumpController.suspendBolus d)).pump.activeBolusAmount
        = 0 := by
  refine ⟨?_, ?_, ?_, ?_, ?_⟩
  · intro h
    simp [PumpController.resumeBolus, Device.logEvent, Device.emit, h]
  · intro h
    simp [PumpController.resumeBolus, h]
  · cases h : d.pump.emergencyStopped <;>
      simp [PumpController.resumeBolus, Device.logEvent, Device.emit, h]
  · cases h : d.pump.emergencyStopped <;>
      simp [PumpController.resumeBolus, Device.logEvent, Device.emit, h]
  · cases h : d.pump.emergencyStopped <;>
      simp [PumpController.resumeBolus, PumpController.suspendBolus, Device.logEvent,
        Device.emit, h]

/-- Witness of C12: a suspended pump out of emergency, and a suspended pump in emergency. -/
theorem resumeBolus_spec_witness :
    PumpController.resumeBolus suspendedDevice
        = { suspendedDevice with
            pump := { suspendedDevice.pump with bolusSuspended := false },
            events := suspendedDevice.events
              ++ [Event.log "Info" "Bolus delivery resumed." []] }
    ∧ PumpController.resumeBolus emergencyDevice = emergencyDevice :=
  ⟨(resumeBolus_spec suspendedDevice).1 rfl, (resumeBolus_spec emergencyDevice).2.1 rfl⟩

/-! ### Emergency stop over later calls (C13) -/

/-- One call with the fault signal asserted keeps the emergency flag and delivers nothing. -/
theorem applyOp_keeps_emergency (d : Device) (op : PumpOp) (hf : op.faultAsserted)
    (he : d.pump.emergencyStopped = true) :
    (PumpController.applyOp d op).pump.emergencyStopped = true
    ∧ (PumpController.applyOp d op).bloodstream = d.bloodstream
    ∧ (PumpController.applyOp d op).insulin = d.insulin := by
  cases op with
  | tick errorChecked =>
    have hc : errorChecked = true := hf
    subst hc
    simp [PumpController.applyOp, PumpController.pump]
  | resumeBolus => simp [PumpController.applyOp, PumpController.resumeBolus, he]
  | suspendBolus =>
    simp [PumpController.applyOp, PumpController.suspendBolus, Device.logEvent, Device.emit, he]
  | deliverBolus amount rate suppressTime =>
    simp [PumpController.applyOp, PumpController.deliverBolus, Device.logEvent, Device.emit, he]
  | adjustBasalRate rate => simp [PumpController.applyOp, PumpController.adjustBasalRate, he]
  | triggerEmergencyStop =>
    simp [PumpController.applyOp, PumpController.triggerEmergencyStop, Device.logEvent,
      Device.emit]

/-- A sequence of calls with the fault signal asserted keeps the emergency flag and delivers nothing. -/
theorem runOps_keeps_emergency (ops : List PumpOp) : ∀ d : Device,
    (∀ op ∈ ops, op.faultAsserted) → d.pump.emergencyStopped = true →
    (PumpController.runOps d ops).pump.emergencyStopped = true
    ∧ (PumpController.runOps d ops).bloodstream = d.bloodstream
    ∧ (PumpController.runOps d ops).insulin = d.insulin := by
  induction ops with
  | nil => intro d _ he; exact ⟨he, rfl, rfl⟩
  | cons op ops ih =>
    intro d hf he
    obtain ⟨h1, h2, h3⟩ := applyOp_keeps_emergency d op (hf op (List.mem_cons_self _ _)) he
    obtain ⟨k1, k2, k3⟩ := ih (PumpController.applyOp d op)
      (fun x hx => hf x (List.mem_cons_of_mem _ hx)) h1
    exact ⟨k1, k2.trans h2, k3.trans h3⟩

/-- C13, counterexample: after `triggerEmergencyStop` on a pump with 5 units
in flight at rate 60, one tick with the fault box unchecked leaves emergency
(status 0) and injects the 5 units. -/
theorem emergency_cleared_by_tick_counterexample :
    (PumpController.triggerEmergencyStop bolusDevice).pump.emergencyStopped = true
    ∧ PumpController.checkDeviceStatus
        (PumpController.runOps (PumpController.triggerEmergencyStop bolusDevice)
          [PumpOp.tick false]) = 0
    ∧ (PumpController.runOps (PumpController.triggerEmergencyStop bolusDevice)
          [PumpOp.tick false]).bloodstream.insulinOnBoard
        - bolusDevice.bloodstream.insulinOnBoard = 5 := by
  norm_num [PumpController.runOps, PumpController.applyOp, PumpController.triggerEmergencyStop,
    PumpController.checkDeviceStatus, PumpController.pump, PumpController.basalStep,
    PumpController.bolusStep, bolusDevice, Device.init, PumpController.init, Device.emit,
    Device.logEvent, Bloodstream.injectUnits, Bloodstream.init, InsulinReserve.useInsulin,
    InsulinReserve.init, InsulinReserve.maxAmount]

/-- C13, amended: after `triggerEmergencyStop`, through every sequence of
`resumeBolus`, `suspendBolus`, `deliverBolus` and `adjustBasalRate` calls and
of ticks at which the fault signal is asserted, the status stays 2 (masking
Suspended) and nothing is injected or withdrawn; the first tick at which the
fault signal is off clears the emergency flag. -/
theorem emergency_persists_while_fault_asserted (d : Device) (ops : List PumpOp)
    (hf : ∀ op ∈ ops, op.faultAsserted) :
    PumpController.checkDeviceStatus
        (PumpController.runOps (PumpController.triggerEmergencyStop d) ops) = 2
    ∧ (PumpController.runOps (PumpController.triggerEmergencyStop d) ops).bloodstream
        = d.bloodstream
    ∧ (PumpController.runOps (PumpController.triggerEmergencyStop d) ops).insulin = d.insulin
    ∧ (PumpController.pump
        (PumpController.runOps (PumpController.triggerEmergencyStop d) ops)
        false).pump.emergencyStopped = false := by
  have h0 : (PumpController.triggerEmergencyStop d).pump.emergencyStopped = true := by
    simp [PumpController.triggerEmergencyStop, Device.logEvent, Device.emit]
  obtain ⟨h1, h2, h3⟩ :=
    runOps_keeps_emergency ops (PumpController.triggerEmergencyStop d) hf h0
  refine ⟨?_, ?_, ?_, ?_⟩
  · simp [PumpController.checkDeviceStatus, h1]
  · rw [h2]; simp [PumpController.triggerEmergencyStop, Device.logEvent, Device.emit]
  · rw [h3]; simp [PumpController.triggerEmergencyStop, Device.logEvent, Device.emit]
  · rw [pump_no_fault]
    by_cases hb : (PumpController.runOps (PumpController.triggerEmergencyStop d)
        ops).pump.bolusSuspended = true
      ∨ (PumpController.runOps (PumpController.triggerEmergencyStop d)
        ops).pump.activeBolusAmount ≤ 0
    · have hs := bolusStep_skip
        { PumpController.runOps (PumpController.triggerEmergencyStop d) ops with
          pump := { (PumpController.runOps (PumpController.triggerEmergencyStop d) ops).pump with
            emergencyStopped := false } } hb
      rw [hs]; rfl
    · have hS : (PumpController.runOps (PumpController.triggerEmergencyStop d)
          ops).pump.bolusSuspended = false := by
        cases hx : (PumpController.runOps (PumpController.triggerEmergencyStop d)
          ops).pump.bolusSuspended
        · rfl
        · exact absurd (Or.inl hx) hb
      have hA : 0 < (PumpController.runOps (PumpController.triggerEmergencyStop d)
          ops).pump.activeBolusAmount := not_le.mp (fun hx => hb (Or.inr hx))
      have hs := bolusStep_active
        { PumpController.runOps (PumpController.triggerEmergencyStop d) ops with
          pump := { (PumpController.runOps (PumpController.triggerEmergencyStop d) ops).pump with
            emergencyStopped := false } } hS hA
      rw [hs]; rfl

/-- Witness of C13 amended on a sequence using every kind of call. -/
theorem emergency_persists_while_fault_asserted_witness :
    PumpController.checkDeviceStatus
        (PumpController.runOps (PumpController.triggerEmergencyStop bolusDevice) faultedOps) = 2
    ∧ (PumpController.runOps (PumpController.triggerEmergencyStop bolusDevice)
        faultedOps).bloodstream = bolusDevice.bloodstream
    ∧ (PumpController.runOps (PumpController.triggerEmergencyStop bolusDevice)
        faultedOps).insulin = bolusDevice.insulin
    ∧ (PumpController.pump
        (PumpController.runOps (PumpController.triggerEmergencyStop bolusDevice) faultedOps)
        false).pump.emergencyStopped = false :=
  emergency_persists_while_fault_asserted bolusDevice faultedOps
    (by simp [faultedOps, PumpOp.faultAsserted])

/-! ### Control decision (C14) -/

/-- `Alert::raise` leaves both rates alone. -/
theorem rates_raise (d : Device) (t : Int) : (Alert.raise d t).rates = d.rates := by
  unfold Alert.raise
  split_ifs
  · cases Alert.logText t <;> rfl
  · rfl

/-- `resumeBolus` leaves both rates alone. -/
theorem rates_resumeBolus (d : Device) : (PumpController.resumeBolus d).rates = d.rates := by
  unfold PumpController.resumeBolus
  split_ifs <;> rfl

/-- `deliverBolus` leaves both rates alone. -/
theorem rates_deliverBolus (d : Device) (amount rate : ℚ) (suppressTime : Bool) :
    (PumpController.deliverBolus d amount rate suppressTime).rates = d.rates := by
  unfold PumpController.deliverBolus
  split_ifs <;> rfl

/-- `Device::safetyChecks` leaves both rates alone. -/
theorem rates_safetyChecks (d : Device) (glucose target : ℚ) (inp : TickInput) :
    (Device.safetyChecks d glucose target inp).rates = d.rates := by
  have hreset : ∀ (x : Device) (t : Int), (Alert.reset x t).rates = x.rates := fun _ _ => rfl
  have hsusp : ∀ x : Device, (PumpController.suspendBolus x).rates = x.rates := fun _ => rfl
  have hcgm : ∀ (x : Device) (e : Bool), (CGMReader.isCGMConnected x e).2.rates = x.rates :=
    fun _ _ => rfl
  simp only [Device.safetyChecks, apply_ite Device.rates, rates_raise, hreset, hsusp, hcgm,
    ite_self]

/-- `deliverExtendedDose` leaves both rates alone. -/
theorem rates_deliverExtendedDose (d : Device) :
    (BolusCalculator.deliverExtendedDose d).rates = d.rates := by
  unfold BolusCalculator.deliverExtendedDose
  split_ifs
  · exact (rates_deliverBolus _ _ _ _).trans (rates_resumeBolus d)
  · rfl

/-- `updateCountdown` leaves both rates alone. -/
theorem rates_updateCountdown (d : Device) :
    (BolusCalculator.updateCountdown d).rates = d.rates := by
  unfold BolusCalculator.updateCountdown
  simp only []
  split_ifs
  · exact rates_deliverExtendedDose _
  · rfl

/-- `UserInterface::refresh` leaves both rates alone. -/
theorem rates_refresh (d : Device) (glucose battery insulin iob : ℚ) :
    (UserInterface.refresh d glucose battery insulin iob).rates = d.rates :=
  rates_updateCountdown _

/-- A pump tick leaves both rates alone. -/
theorem rates_pump (d : Device) (e : Bool) : (PumpController.pump d e).rates = d.rates := by
  unfold PumpController.pump PumpController.basalStep PumpController.bolusStep
  simp only []
  split_ifs <;> rfl

/-- A glucose sample leaves both rates alone. -/
theorem rates_sample (d : Device) (cf rnd : ℚ) :
    (CGMReader.getCurrentGlucoseLevel d cf rnd).2.rates = d.rates := by
  unfold CGMReader.getCurrentGlucoseLevel
  simp only []
  split_ifs <;> rfl

/-- Basal rate of the pump after the control decision, in terms of the rate the algorithm consults. -/
theorem analyzeGlucoseData_rate (d : Device) (glucose : ℚ) (profile : Profile) :
    (ControlIQAlgorithm.analyzeGlucoseData d glucose profile).pump.currentBasalRate
      = (if glucose ≤ 39 / 10 then 0
         else if glucose > profile.targetGlucose ∧ d.currentRate = 0 then profile.basalRate
         else if d.currentRate ≠ 0 ∧ d.currentRate ≠ profile.basalRate then profile.basalRate
         else d.pump.currentBasalRate) := by
  unfold ControlIQAlgorithm.analyzeGlucoseData
  simp only []
  split_ifs <;> rfl

/-- The control decision keeps the two rates equal. -/
theorem sync_analyzeGlucoseData (d : Device) (glucose : ℚ) (profile : Profile)
    (hs : d.currentRate = d.pump.currentBasalRate) :
    (ControlIQAlgorithm.analyzeGlucoseData d glucose profile).currentRate
      = (ControlIQAlgorithm.analyzeGlucoseData d glucose profile).pump.currentBasalRate := by
  unfold ControlIQAlgorithm.analyzeGlucoseData
  simp only []
  split_ifs
  · rfl
  · rfl
  · rfl
  · exact hs

/-- Equality of the two rates only depends on the two rates. -/
theorem sync_of_rates_eq {d e : Device} (h : e.rates = d.rates)
    (hs : d.currentRate = d.pump.currentBasalRate) :
    e.currentRate = e.pump.currentBasalRate := by
  simp only [Device.rates, Prod.mk.injEq] at h
  rw [h.1, h.2]
  exact hs

/-- `Device::monitor` keeps the two rates equal. -/
theorem sync_monitor (d : Device) (inp : TickInput)
    (hs : d.currentRate = d.pump.currentBasalRate) :
    (Device.monitor d inp).currentRate = (Device.monitor d inp).pump.currentBasalRate := by
  unfold Device.monitor
  simp only []
  apply sync_of_rates_eq (rates_refresh _ _ _ _ _)
  have h1 := sync_of_rates_eq (rates_sample d inp.profile.correctionFactor inp.random) hs
  have h2 := sync_of_rates_eq (rates_safetyChecks
    (CGMReader.getCurrentGlucoseLevel d inp.profile.correctionFactor inp.random).2
    (CGMReader.getCurrentGlucoseLevel d inp.profile.correctionFactor inp.random).1
    inp.profile.targetGlucose inp) h1
  split_ifs
  · unfold Device.pumpLogic
    exact sync_of_rates_eq (rates_pump _ _) (sync_analyzeGlucoseData _ _ _ h2)
  · exact h2

/-- `Device::tick` keeps the two rates equal. -/
theorem sync_tick (d : Device) (inp : TickInput)
    (hs : d.currentRate = d.pump.currentBasalRate) :
    (Device.tick d inp).currentRate = (Device.tick d inp).pump.currentBasalRate := by
  unfold Device.tick
  simp only []
  split_ifs
  · exact sync_monitor _ _ hs
  · exact hs
  · exact sync_monitor _ _ hs
  · exact hs

/-- The deliver command keeps the two rates equal. -/
theorem sync_on_btnDeliver_clicked (d : Device) (ui : BolusCalculator.DeliverInput)
    (profile : Profile) (hs : d.currentRate = d.pump.currentBasalRate) :
    (BolusCalculator.on_btnDeliver_clicked d ui profile).currentRate
      = (BolusCalculator.on_btnDeliver_clicked d ui profile).pump.currentBasalRate := by
  have h1 := sync_of_rates_eq (rates_resumeBolus d) hs
  unfold BolusCalculator.on_btnDeliver_clicked
  simp only []
  split_ifs
  · exact hs
  · exact hs
  · exact hs
  · exact sync_of_rates_eq (rates_deliverBolus
      { PumpController.resumeBolus d with bolusCalculator :=
        { (PumpController.resumeBolus d).bolusCalculator with countdownMinutes := ui.mins } }
      _ _ true) h1
  · exact sync_of_rates_eq (rates_deliverBolus _ _ _ true) h1
  · exact hs

/-- Every command keeps the two rates equal. -/
theorem sync_exec (d : Device) (c : Command)
    (hs : d.currentRate = d.pump.currentBasalRate) :
    (d.exec c).currentRate = (d.exec c).pump.currentBasalRate := by
  cases c with
  | power =>
    show d.power.currentRate = d.power.pump.currentBasalRate
    unfold Device.power
    split_ifs <;> exact hs
  | startMonitoring inp =>
    show (d.startMonitoring inp).currentRate = (d.startMonitoring inp).pump.currentBasalRate
    unfold Device.startMonitoring
    simp only []
    split_ifs
    · exact sync_tick _ _ hs
    · exact hs
  | togglePaused =>
    show d.togglePaused.currentRate = d.togglePaused.pump.currentBasalRate
    unfold Device.togglePaused
    split_ifs <;> exact hs
  | tick inp => exact sync_tick _ _ hs
  | sample cf rnd => exact sync_of_rates_eq (rates_sample d cf rnd) hs
  | simCarbIntake carbs profile => exact hs
  | deliverBolus amount rate st => exact sync_of_rates_eq (rates_deliverBolus d amount rate st) hs
  | suspendBolus => exact hs
  | resumeBolus => exact sync_of_rates_eq (rates_resumeBolus d) hs
  | refillInsulin => exact hs
  | chargeBattery => exact hs
  | calculateClicked ok1 glucose ok2 carbs profile =>
    show (BolusCalculator.on_btnCalculate_clicked d ok1 glucose ok2 carbs profile).currentRate
      = (BolusCalculator.on_btnCalculate_clicked d ok1 glucose ok2 carbs
          profile).pump.currentBasalRate
    unfold BolusCalculator.on_btnCalculate_clicked
    simp only []
    split_ifs <;> exact hs
  | overrideConfirmClicked ok dose =>
    show (BolusCalculator.on_btnOverrideConfirm_clicked d ok dose).currentRate
      = (BolusCalculator.on_btnOverrideConfirm_clicked d ok dose).pump.currentBasalRate
    unfold BolusCalculator.on_btnOverrideConfirm_clicked
    split_ifs <;> exact hs
  | deliverClicked ui profile => exact sync_on_btnDeliver_clicked _ _ _ hs
  | cancelBolusClicked =>
    show (BolusCalculator.on_btnCancelBolus_clicked d).currentRate
      = (BolusCalculator.on_btnCancelBolus_clicked d).pump.currentBasalRate
    simp only [BolusCalculator.on_btnCancelBolus_clicked, PumpController.suspendBolus,
      Device.logEvent, Device.emit]
    exact hs

/-- Every command sequence keeps the two rates equal. -/
theorem sync_run (cmds : List Command) : ∀ d : Device,
    d.currentRate = d.pump.currentBasalRate →
    (d.run cmds).currentRate = (d.run cmds).pump.currentBasalRate := by
  induction cmds with
  | nil => intro d hs; exact hs
  | cons c cs ih => intro d hs; exact ih (d.exec c) (sync_exec d c hs)

/-- C14: in every state reached from the initial device state by any command
sequence the rate the algorithm consults equals the basal rate of the pump,
and the basal rate after the control decision is the function `decideSpec` of
the glucose value, the profile and the basal rate of the pump before: 0 if
glucose <= 3.9; else the profile rate if glucose > target and the pump rate is
0; else the profile rate if the pump rate is neither 0 nor the profile rate;
else unchanged.  The two rates agree again after the decision. -/
theorem control_decision_spec (cmds : List Command) (glucose : ℚ) (profile : Profile) :
    (Device.init.run cmds).currentRate = (Device.init.run cmds).pump.currentBasalRate
    ∧ (ControlIQAlgorithm.analyzeGlucoseData (Device.init.run cmds) glucose
        profile).pump.currentBasalRate
      = ControlIQAlgorithm.decideSpec glucose profile
          (Device.init.run cmds).pump.currentBasalRate
    ∧ (ControlIQAlgorithm.analyzeGlucoseData (Device.init.run cmds) glucose
        profile).currentRate
      = (ControlIQAlgorithm.analyzeGlucoseData (Device.init.run cmds) glucose
        profile).pump.currentBasalRate := by
  have hs : (Device.init.run cmds).currentRate = (Device.init.run cmds).pump.currentBasalRate :=
    sync_run cmds Device.init rfl
  refine ⟨hs, ?_, sync_analyzeGlucoseData _ _ _ hs⟩
  rw [analyzeGlucoseData_rate, hs]
  rfl

/-! ### Glucose cases of the safety evaluation (C15) -/

/-- `Alert::raise` leaves the other kinds alone. -/
theorem raise_other (d : Device) (t u : Int) (h : u ≠ t) :
    (Alert.raise d t).raisedAlerts u = d.raisedAlerts u := by
  unfold Alert.raise
  split_ifs
  · cases Alert.logText t <;> simp [Device.emit, Device.logEvent, h]
  · rfl

/-- After `Alert::raise` the kind is active. -/
theorem raise_self (d : Device) (t : Int) : (Alert.raise d t).raisedAlerts t = true := by
  unfold Alert.raise
  split_ifs with h
  · cases Alert.logText t <;> simp [Device.emit, Device.logEvent]
  · simpa using h

/-- `Alert::raise` leaves the pump alone. -/
theorem raise_pump (d : Device) (t : Int) : (Alert.raise d t).pump = d.pump := by
  unfold Alert.raise
  split_ifs
  · cases Alert.logText t <;> rfl
  · rfl

/-- `Alert::reset` leaves the other kinds alone. -/
theorem reset_other (d : Device) (t u : Int) (h : u ≠ t) :
    (Alert.reset d t).raisedAlerts u = d.raisedAlerts u := by
  simp [Alert.reset, h]

/-- After `Alert::reset` the kind is inactive. -/
theorem reset_self (d : Device) (t : Int) : (Alert.reset d t).raisedAlerts t = false := by
  simp [Alert.reset]

/-- `Device::safetyChecks` is the glucose cases applied after `alertChecks`. -/
theorem safetyChecks_eq (d : Device) (glucose target : ℚ) (inp : TickInput) :
    Device.safetyChecks d glucose target inp =
      (if glucose = -1 then PumpController.suspendBolus (d.alertChecks inp)
       else if glucose < 39 / 10 then
         Alert.raise (PumpController.suspendBolus (d.alertChecks inp)) Alert.GLUCOSE_LOW
       else if glucose > target + 2 then Alert.raise (d.alertChecks inp) Alert.GLUCOSE_HIGH
       else if glucose ≤ target + 1 / 2 ∧ glucose ≥ target - 1 / 2 then
         Alert.reset (Alert.reset (d.alertChecks inp) Alert.GLUCOSE_HIGH) Alert.GLUCOSE_LOW
       else d.alertChecks inp) := rfl

/-- The checks before the glucose cases leave the pump alone. -/
theorem alertChecks_pump (d : Device) (inp : TickInput) : (d.alertChecks inp).pump = d.pump := by
  have hreset : ∀ (x : Device) (t : Int), (Alert.reset x t).pump = x.pump := fun _ _ => rfl
  have hcgm : ∀ (x : Device) (e : Bool), (CGMReader.isCGMConnected x e).2.pump = x.pump :=
    fun _ _ => rfl
  simp only [Device.alertChecks, apply_ite Device.pump, raise_pump, hreset, hcgm, ite_self]

/-- The checks before the glucose cases leave the two glucose alerts alone. -/
theorem alertChecks_glucose_alerts (d : Device) (inp : TickInput) (u : Int)
    (hu : u = Alert.GLUCOSE_LOW ∨ u = Alert.GLUCOSE_HIGH) :
    (d.alertChecks inp).raisedAlerts u = d.raisedAlerts u := by
  have h1 : u ≠ Alert.BATTERY_LOW := by
    rcases hu with h | h <;> rw [h] <;> decide
  have h2 : u ≠ Alert.INSULIN_LOW := by
    rcases hu with h | h <;> rw [h] <;> decide
  have h3 : u ≠ Alert.CGM_DISCONNECTED := by
    rcases hu with h | h <;> rw [h] <;> decide
  have h6 : u ≠ Alert.PUMP_OCCLUSION := by
    rcases hu with h | h <;> rw [h] <;> decide
  have hcgm : ∀ (x : Device) (e : Bool),
      (CGMReader.isCGMConnected x e).2.raisedAlerts u = x.raisedAlerts u := fun _ _ => rfl
  simp only [Device.alertChecks, apply_ite (fun x : Device => x.raisedAlerts u),
    raise_other _ _ _ h1, raise_other _ _ _ h2, raise_other _ _ _ h3, raise_other _ _ _ h6,
    reset_other _ _ _ h3, reset_other _ _ _ h6, hcgm, ite_self]

/-- C15: the glucose part of the safety evaluation, by first match.  Sentinel
-1: the bolus is suspended (amount zeroed) and neither glucose alert changes.
Otherwise glucose < 3.9: the bolus is suspended and GlucoseLow is active,
GlucoseHigh unchanged.  Otherwise glucose > target + 2: GlucoseHigh is active,
GlucoseLow and the pump unchanged.  Otherwise glucose within
[target - 0.5, target + 0.5]: both glucose alerts are inactive, the pump
unchanged.  Otherwise (the dead zones): neither glucose alert nor the pump
(so neither the suspended flag) changes. -/
theorem safetyChecks_glucose_cases (d : Device) (glucose target : ℚ) (inp : TickInput) :
    (glucose = -1 →
      (Device.safetyChecks d glucose target inp).pump.bolusSuspended = true
      ∧ (Device.safetyChecks d glucose target inp).pump.activeBolusAmount = 0
      ∧ (Device.safetyChecks d glucose target inp).raisedAlerts Alert.GLUCOSE_LOW
          = d.raisedAlerts Alert.GLUCOSE_LOW
      ∧ (Device.safetyChecks d glucose target inp).raisedAlerts Alert.GLUCOSE_HIGH
          = d.raisedAlerts Alert.GLUCOSE_HIGH)
    ∧ (glucose ≠ -1 → glucose < 39 / 10 →
      (Device.safetyChecks d glucose target inp).pump.bolusSuspended = true
      ∧ (Device.safetyChecks d glucose target inp).pump.activeBolusAmount = 0
      ∧ (Device.safetyChecks d glucose target inp).raisedAlerts Alert.GLUCOSE_LOW = true
      ∧ (Device.safetyChecks d glucose target inp).raisedAlerts Alert.GLUCOSE_HIGH
          = d.raisedAlerts Alert.GLUCOSE_HIGH)
    ∧ (glucose ≠ -1 → 39 / 10 ≤ glucose → target + 2 < glucose →
      (Device.safetyChecks d glucose target inp).raisedAlerts Alert.GLUCOSE_HIGH = true
      ∧ (Device.safetyChecks d glucose target inp).raisedAlerts Alert.GLUCOSE_LOW
          = d.raisedAlerts Alert.GLUCOSE_LOW
      ∧ (Device.safetyChecks d glucose target inp).pump = d.pump)
    ∧ (glucose ≠ -1 → 39 / 10 ≤ glucose → glucose ≤ target + 2 →
        target - 1 / 2 ≤ glucose ∧ glucose ≤ target + 1 / 2 →
      (Device.safetyChecks d glucose target inp).raisedAlerts Alert.GLUCOSE_HIGH = false
      ∧ (Device.safetyChecks d glucose target inp).raisedAlerts Alert.GLUCOSE_LOW = false
      ∧ (Device.safetyChecks d glucose target inp).pump = d.pump)
    ∧ (glucose ≠ -1 → 39 / 10 ≤ glucose → glucose ≤ target + 2 →
        ¬ (target - 1 / 2 ≤ glucose ∧ glucose ≤ target + 1 / 2) →
      (Device.safetyChecks d glucose target inp).raisedAlerts Alert.GLUCOSE_HIGH
          = d.raisedAlerts Alert.GLUCOSE_HIGH
      ∧ (Device.safetyChecks d glucose target inp).raisedAlerts Alert.GLUCOSE_LOW
          = d.raisedAlerts Alert.GLUCOSE_LOW
      ∧ (Device.safetyChecks d glucose target inp).pump = d.pump) := by
  have hL := alertChecks_glucose_alerts d inp Alert.GLUCOSE_LOW (Or.inl rfl)
  have hH := alertChecks_glucose_alerts d inp Alert.GLUCOSE_HIGH (Or.inr rfl)
  have hP := alertChecks_pump d inp
  have hne : Alert.GLUCOSE_HIGH ≠ Alert.GLUCOSE_LOW := by decide
  have hne2 : Alert.GLUCOSE_LOW ≠ Alert.GLUCOSE_HIGH := by decide
  have hsA : ∀ (x : Device) (u : Int),
      (PumpController.suspendBolus x).raisedAlerts u = x.raisedAlerts u := fun _ _ => rfl
  have hsS : ∀ x : Device, (PumpController.suspendBolus x).pump.bolusSuspended = true :=
    fun _ => rfl
  have hsZ : ∀ x : Device, (PumpController.suspendBolus x).pump.activeBolusAmount = 0 :=
    fun _ => rfl
  rw [safetyChecks_eq]
  refine ⟨?_, ?_, ?_, ?_, ?_⟩
  · intro h
    rw [if_pos h]
    exact ⟨hsS _, hsZ _, (hsA _ _).trans hL, (hsA _ _).trans hH⟩
  · intro h1 h2
    rw [if_neg h1, if_pos h2]
    refine ⟨?_, ?_, raise_self _ _, ?_⟩
    · rw [raise_pump]; exact hsS _
    · rw [raise_pump]; exact hsZ _
    · rw [raise_other _ _ _ hne]; exact (hsA _ _).trans hH
  · intro h1 h2 h3
    rw [if_neg h1, if_neg (not_lt.mpr h2), if_pos h3]
    refine ⟨raise_self _ _, ?_, ?_⟩
    · rw [raise_other _ _ _ hne2]; exact hL
    · rw [raise_pump]; exact hP
  · intro h1 h2 h3 h4
    rw [if_neg h1, if_neg (not_lt.mpr h2), if_neg (not_lt.mpr h3), if_pos ⟨h4.2, h4.1⟩]
    refine ⟨?_, reset_self _ _, hP⟩
    rw [reset_other _ _ _ hne]
    exact reset_self _ _
  · intro h1 h2 h3 h4
    rw [if_neg h1, if_neg (not_lt.mpr h2), if_neg (not_lt.mpr h3),
      if_neg (fun h => h4 ⟨h.2, h.1⟩)]
    exact ⟨hH, hL, hP⟩

/-- Witness of C15 at target 5.5: the samples -1, 3.5, 8, 5.5 and 7. -/
theorem safetyChecks_glucose_cases_witness :
    ((Device.safetyChecks glucoseAlertsDevice (-1) (11 / 2) quietInput).pump.bolusSuspended
        = true
      ∧ (Device.safetyChecks glucoseAlertsDevice (-1) (11 / 2) quietInput).raisedAlerts
          Alert.GLUCOSE_LOW = glucoseAlertsDevice.raisedAlerts Alert.GLUCOSE_LOW)
    ∧ ((Device.safetyChecks Device.init (7 / 2) (11 / 2) quietInput).pump.bolusSuspended = true
      ∧ (Device.safetyChecks Device.init (7 / 2) (11 / 2) quietInput).raisedAlerts
          Alert.GLUCOSE_LOW = true)
    ∧ (Device.safetyChecks Device.init 8 (11 / 2) quietInput).raisedAlerts
        Alert.GLUCOSE_HIGH = true
    ∧ ((Device.safetyChecks glucoseAlertsDevice (11 / 2) (11 / 2) quietInput).raisedAlerts
          Alert.GLUCOSE_HIGH = false
      ∧ (Device.safetyChecks glucoseAlertsDevice (11 / 2) (11 / 2) quietInput).raisedAlerts
          Alert.GLUCOSE_LOW = false)
    ∧ (Device.safetyChecks glucoseAlertsDevice 7 (11 / 2) quietInput).pump
        = glucoseAlertsDevice.pump :=
  have h1 := (safetyChecks_glucose_cases glucoseAlertsDevice (-1) (11 / 2) quietInput).1 rfl
  have h2 := (safetyChecks_glucose_cases Device.init (7 / 2) (11 / 2) quietInput).2.1
    (by norm_num) (by norm_num)
  have h3 := (safetyChecks_glucose_cases Device.init 8 (11 / 2) quietInput).2.2.1
    (by norm_num) (by norm_num) (by norm_num)
  have h4 := (safetyChecks_glucose_cases glucoseAlertsDevice (11 / 2) (11 / 2)
    quietInput).2.2.2.1 (by norm_num) (by norm_num) (by norm_num) (by norm_num)
  have h5 := (safetyChecks_glucose_cases glucoseAlertsDevice 7 (11 / 2)
    quietInput).2.2.2.2 (by norm_num) (by norm_num) (by norm_num) (by norm_num)
  ⟨⟨h1.1, h1.2.2.1⟩, ⟨h2.1, h2.2.2.1⟩, h3.1, ⟨h4.1, h4.2.1⟩, h5.2.2⟩

/-! ### First tick after the CGM link is lost (C16) -/

set_option maxHeartbeats 1000000 in
/-- C16, evaluated at the failing input: after power-on, unlock and a bolus
request of 5 units, a tick at which the CGM fault box is checked still samples
the reading 37/6 (not -1); the tick raises CgmDisconnected but leaves the pump
not suspended and delivers the 5 units. -/
theorem first_disconnected_tick_returns_reading :
    (Device.init.run linkLossSession).monitoring = true
    ∧ disconnectedInput.cgmErrorBox = true
    ∧ (CGMReader.getCurrentGlucoseLevel (Device.init.run linkLossSession)
        disconnectedInput.profile.correctionFactor disconnectedInput.random).1 = 37 / 6
    ∧ (Device.tick (Device.init.run linkLossSession) disconnectedInput).raisedAlerts
        Alert.CGM_DISCONNECTED = true
    ∧ (Device.tick (Device.init.run linkLossSession) disconnectedInput).pump.bolusSuspended
        = false
    ∧ (Device.init.run linkLossSession).pump.activeBolusAmount = 5
    ∧ (Device.tick (Device.init.run linkLossSession) disconnectedInput).pump.activeBolusAmount
        = 0
    ∧ (Device.tick (Device.init.run linkLossSession)
        disconnectedInput).bloodstream.insulinOnBoard
      - (Device.init.run linkLossSession).bloodstream.insulinOnBoard = 5 := by
  norm_num [Device.run, Device.exec, Device.power, Device.startMonitoring, Device.tick,
    linkLossSession, disconnectedInput, Device.noPower, BatteryManager.drainBattery,
    BatteryManager.getBatteryLevel, Device.monitor, CGMReader.getCurrentGlucoseLevel,
    quietInput, defaultProfile, Device.safetyChecks, Device.pumpLogic,
    UserInterface.refresh, BolusCalculator.updateCountdown,
    BolusCalculator.deliverExtendedDose, Device.emit, Device.logEvent, Alert.raise, Alert.reset,
    PumpController.suspendBolus, PumpController.resumeBolus, PumpController.deliverBolus,
    PumpController.pump, PumpController.basalStep, PumpController.bolusStep,
    PumpController.adjustBasalRate, ControlIQAlgorithm.analyzeGlucoseData,
    ControlIQAlgorithm.adjustBasalRate, BolusCalculator.bolusRate,
    CGMReader.isCGMConnected, Device.init, PumpController.init, CGMReader.init,
    CGMReader.startAmount, Bloodstream.init, Bloodstream.absorbUnits, Bloodstream.getIOB,
    Bloodstream.injectUnits, BolusCalculator.init, InsulinReserve.useInsulin,
    InsulinReserve.getInsulinRemaining, InsulinReserve.init, InsulinReserve.isInsulinLow,
    BatteryManager.isBatteryCritical, BatteryManager.init, InsulinReserve.maxAmount,
    InsulinReserve.lowAmount, BatteryManager.criticalValue, CGMReader.insulinUsageRate,
    CGMReader.increasePerHour, CGMReader.volatility, Alert.GLUCOSE_LOW, Alert.logText,
    Alert.BATTERY_LOW, Alert.INSULIN_LOW, Alert.CGM_DISCONNECTED, Alert.PUMP_OCCLUSION,
    Alert.GLUCOSE_HIGH]

/-! ### Alert deduplication (C17) -/

/-- C17: for every alert kind, raising a kind that is active returns the device
unchanged (no alert, no log entry), so a second raise in a row changes
nothing; resetting a kind that is inactive returns the device unchanged; and
reset followed by raise leaves the kind active and emits its warning log entry
(for the six kinds of the switch) and its alert again. -/
theorem alert_dedup (d : Device) (t : Int) :
    (d.raisedAlerts t = true → Alert.raise d t = d)
    ∧ Alert.raise (Alert.raise d t) t = Alert.raise d t
    ∧ (d.raisedAlerts t = false → Alert.reset d t = d)
    ∧ (Alert.raise (Alert.reset d t) t).raisedAlerts t = true
    ∧ (Alert.raise (Alert.reset d t) t).events
        = d.events
          ++ (match Alert.logText t with
              | some text => [Event.log "Warning" text []]
              | none => [])
          ++ [Event.showAlert t] := by
  have key : ∀ x : Device, x.raisedAlerts t = true → Alert.raise x t = x := by
    intro x h
    simp [Alert.raise, h]
  refine ⟨key d, key _ (raise_self d t), ?_, raise_self _ _, ?_⟩
  · intro h
    cases d with
    | mk poweredOn monitoring paused battery insulin bloodstream pump cgm bolusCalculator
        currentRate raisedAlerts events =>
      simp only [Alert.reset, Device.mk.injEq, true_and, and_true]
      funext x
      by_cases hx : x = t
      · subst hx; simpa using h.symm
      · simp [hx]
  · cases hl : Alert.logText t <;>
      simp [Alert.raise, Alert.reset, Device.emit, Device.logEvent, hl]

/-- Witness of C17: raising an active GlucoseLow and resetting an inactive BatteryLow. -/
theorem alert_dedup_witness :
    Alert.raise glucoseAlertsDevice Alert.GLUCOSE_LOW = glucoseAlertsDevice
    ∧ Alert.reset Device.init Alert.BATTERY_LOW = Device.init :=
  ⟨(alert_dedup glucoseAlertsDevice Alert.GLUCOSE_LOW).1 rfl,
   (alert_dedup Device.init Alert.BATTERY_LOW).2.2.1 rfl⟩

/-! ### InsulinLow across a refill (C18) -/

/-- C18, evaluated at the failing input: on a monitoring device with 20 units
left a tick raises InsulinLow; the refill command then brings the reserve to
300 units but leaves InsulinLow active. -/
theorem refill_keeps_insulin_low_alert :
    lowReserveDevice.insulin.isInsulinLow = true
    ∧ lowReserveDevice.raisedAlerts Alert.INSULIN_LOW = false
    ∧ (Device.tick lowReserveDevice quietInput).raisedAlerts Alert.INSULIN_LOW = true
    ∧ (Device.refillInsulinReleased
        (Device.tick lowReserveDevice quietInput)).insulin.insulinRemaining = 300
    ∧ (Device.refillInsulinReleased
        (Device.tick lowReserveDevice quietInput)).raisedAlerts Alert.INSULIN_LOW = true := by
  norm_num [Device.tick, Device.refillInsulinReleased, InsulinReserve.refillInsulin,
    lowReserveDevice, Device.noPower, BatteryManager.drainBattery,
    BatteryManager.getBatteryLevel, Device.monitor, CGMReader.getCurrentGlucoseLevel,
    quietInput, defaultProfile, Device.safetyChecks, Device.pumpLogic,
    UserInterface.refresh, BolusCalculator.updateCountdown,
    BolusCalculator.deliverExtendedDose, Device.emit, Device.logEvent, Alert.raise, Alert.reset,
    PumpController.suspendBolus, PumpController.resumeBolus, PumpController.deliverBolus,
    PumpController.pump, PumpController.basalStep, PumpController.bolusStep,
    PumpController.adjustBasalRate, ControlIQAlgorithm.analyzeGlucoseData,
    ControlIQAlgorithm.adjustBasalRate, BolusCalculator.bolusRate,
    CGMReader.isCGMConnected, Device.init, PumpController.init, CGMReader.init,
    CGMReader.startAmount, Bloodstream.init, Bloodstream.absorbUnits, Bloodstream.getIOB,
    Bloodstream.injectUnits, BolusCalculator.init, InsulinReserve.useInsulin,
    InsulinReserve.getInsulinRemaining, InsulinReserve.init, InsulinReserve.isInsulinLow,
    BatteryManager.isBatteryCritical, BatteryManager.init, InsulinReserve.maxAmount,
    InsulinReserve.lowAmount, BatteryManager.criticalValue, CGMReader.insulinUsageRate,
    CGMReader.increasePerHour, CGMReader.volatility, Alert.GLUCOSE_LOW, Alert.logText,
    Alert.BATTERY_LOW, Alert.INSULIN_LOW, Alert.CGM_DISCONNECTED, Alert.PUMP_OCCLUSION,
    Alert.GLUCOSE_HIGH]

/-! ### Correction and carbohydrate bolus (C19, C20) -/

/-- C19: `calculateCorrectionBolus` is max(0, (glucose - target)/cf) when
cf > 0 and 0 when cf <= 0; it is never negative; its value is 0 at
(5.5, 5.5, 2.5) and 1.8 at (10, 5.5, 2.5). -/
theorem calculateCorrectionBolus_spec (glucose target cf : ℚ) :
    (0 < cf → BolusCalculator.calculateCorrectionBolus glucose target cf
        = max 0 ((glucose - target) / cf))
    ∧ (cf ≤ 0 → BolusCalculator.calculateCorrectionBolus glucose target cf = 0)
    ∧ 0 ≤ BolusCalculator.calculateCorrectionBolus glucose target cf
    ∧ BolusCalculator.calculateCorrectionBolus (11 / 2) (11 / 2) (5 / 2) = 0
    ∧ BolusCalculator.calculateCorrectionBolus 10 (11 / 2) (5 / 2) = 9 / 5 := by
  refine ⟨?_, ?_, ?_, ?_, ?_⟩
  · intro hcf
    unfold BolusCalculator.calculateCorrectionBolus
    rw [if_neg (not_le.mpr hcf)]
    simp only []
    split_ifs with h
    · exact (max_eq_right (le_of_lt (div_pos h hcf))).symm
    · exact (max_eq_left (div_nonpos_of_nonpos_of_nonneg (not_lt.mp h) (le_of_lt hcf))).symm
  · intro hcf
    simp [BolusCalculator.calculateCorrectionBolus, hcf]
  · unfold BolusCalculator.calculateCorrectionBolus
    simp only []
    split_ifs with h1 h2
    · exact le_refl _
    · exact le_of_lt (div_pos h2 (not_le.mp h1))
    · exact le_refl _
  · norm_num [BolusCalculator.calculateCorrectionBolus]
  · norm_num [BolusCalculator.calculateCorrectionBolus]

/-- Witness of C19 for a positive and a negative correction factor. -/
theorem calculateCorrectionBolus_spec_witness :
    BolusCalculator.calculateCorrectionBolus 10 (11 / 2) (5 / 2)
        = max 0 ((10 - 11 / 2) / (5 / 2))
    ∧ BolusCalculator.calculateCorrectionBolus 10 (11 / 2) (-1) = 0 :=
  ⟨(calculateCorrectionBolus_spec 10 (11 / 2) (5 / 2)).1 (by norm_num),
   (calculateCorrectionBolus_spec 10 (11 / 2) (-1)).2.1 (by norm_num)⟩

/-- C20, evaluated at the failing input: `calculateCarbBolus(60, 0.09, -2.5)`
is -2.16, not 0, while `calculateCorrectionBolus` returns 0 for the same
negative factor. -/
theorem calculateCarbBolus_negative_factor :
    BolusCalculator.calculateCarbBolus 60 (9 / 100) (-5 / 2) = -54 / 25
    ∧ BolusCalculator.calculateCarbBolus 60 (9 / 100) (-5 / 2) ≠ 0
    ∧ BolusCalculator.calculateCorrectionBolus 10 (11 / 2) (-5 / 2) = 0 := by
  norm_num [BolusCalculator.calculateCarbBolus, BolusCalculator.calculateCorrectionBolus]

/-! ### Dose calculation (C21, C23, C24) -/

/-- C21: for all glucose and carbs and every active profile, `calculateBolus`
returns the stored override value when the override flag is set, and otherwise
`calculateTotalBolus(glucose, carbs, profile.target)`, which is the carb bolus
for the profile ratio and factor plus the correction bolus for the profile
target and factor. -/
theorem calculateBolus_spec (d : Device) (glucose carbs : ℚ) (profile : Profile) :
    (d.bolusCalculator.doseOverridden = true →
      BolusCalculator.calculateBolus d glucose carbs profile
        = d.bolusCalculator.overriddenDose)
    ∧ (d.bolusCalculator.doseOverridden = false →
      BolusCalculator.calculateBolus d glucose carbs profile
        = BolusCalculator.calculateTotalBolus glucose carbs profile.targetGlucose profile)
    ∧ BolusCalculator.calculateTotalBolus glucose carbs profile.targetGlucose profile
        = BolusCalculator.calculateCarbBolus carbs profile.carbRatio profile.correctionFactor
          + BolusCalculator.calculateCorrectionBolus glucose profile.targetGlucose
              profile.correctionFactor := by
  refine ⟨?_, ?_, rfl⟩
  · intro h
    simp [BolusCalculator.calculateBolus, h]
  · intro h
    simp [BolusCalculator.calculateBolus, BolusCalculator.calculateTotalBolus, h]

/-- Witness of C21 with and without an override. -/
theorem calculateBolus_spec_witness :
    BolusCalculator.calculateBolus overriddenDevice 8 60 defaultProfile
        = overriddenDevice.bolusCalculator.overriddenDose
    ∧ BolusCalculator.calculateBolus Device.init 8 60 defaultProfile
        = BolusCalculator.calculateTotalBolus 8 60 defaultProfile.targetGlucose
            defaultProfile :=
  ⟨(calculateBolus_spec overriddenDevice 8 60 defaultProfile).1 rfl,
   (calculateBolus_spec Device.init 8 60 defaultProfile).2.1 rfl⟩

/-- C23: `validateBolusInput(dose)` is true exactly when 0 < dose <= 25; the
override-confirm entry point, on a parsed dose in that range, sets the
override flag and stores the dose (and changes nothing else but the display);
on any other dose, or a text that does not parse, it leaves the whole device,
so the flag and the stored value, unchanged and displays "Invalid override". -/
theorem override_confirm_spec (d : Device) (ok : Bool) (dose : ℚ) :
    (BolusCalculator.validateBolusInput dose = true ↔ 0 < dose ∧ dose ≤ 25)
    ∧ (ok = true → 0 < dose ∧ dose ≤ 25 →
      BolusCalculator.on_btnOverrideConfirm_clicked d ok dose
        = { d with
            bolusCalculator := { d.bolusCalculator with overriddenDose := dose,
                                                        doseOverridden := true },
            events := d.events ++ [Event.outputResult "%1 (Overridden)" [dose]] })
    ∧ (¬ (ok = true ∧ 0 < dose ∧ dose ≤ 25) →
      BolusCalculator.on_btnOverrideConfirm_clicked d ok dose
        = { d with events := d.events ++ [Event.outputResult "Invalid override" []] }) := by
  have hv : BolusCalculator.validateBolusInput dose = true ↔ 0 < dose ∧ dose ≤ 25 := by
    simp [BolusCalculator.validateBolusInput]
  refine ⟨hv, ?_, ?_⟩
  · intro hok hd
    have h := hv.mpr hd
    simp [BolusCalculator.on_btnOverrideConfirm_clicked, BolusCalculator.overrideDose,
      Device.emit, hok, h]
  · intro hn
    have h : (!ok || !BolusCalculator.validateBolusInput dose) = true := by
      cases hok : ok
      · simp
      · cases hval : BolusCalculator.validateBolusInput dose
        · simp
        · exact absurd ⟨hok, hv.mp hval⟩ hn
    simp [BolusCalculator.on_btnOverrideConfirm_clicked, Device.emit, h]

/-- Witness of C23: a dose of 7 is installed, a dose of 30 is refused. -/
theorem override_confirm_spec_witness :
    BolusCalculator.on_btnOverrideConfirm_clicked Device.init true 7
        = { Device.init with
            bolusCalculator := { Device.init.bolusCalculator with overriddenDose := 7,
                                                                  doseOverridden := true },
            events := Device.init.events ++ [Event.outputResult "%1 (Overridden)" [7]] }
    ∧ BolusCalculator.on_btnOverrideConfirm_clicked overriddenDevice true 30
        = { overriddenDevice with
            events := overriddenDevice.events ++ [Event.outputResult "Invalid override" []] } :=
  ⟨(override_confirm_spec Device.init true 7).2.1 rfl (by norm_num),
   (override_confirm_spec overriddenDevice true 30).2.2 (by norm_num)⟩

/-- C24: for every total and every percentage in [0, 100], `splitBolus` returns
(total*pct/100, total - total*pct/100), whose parts sum to total; for a
percentage outside [0, 100] it returns (0, 0); `splitBolus(10, 50) = (5, 5)`
and `splitBolus(10, 150) = (0, 0)`. -/
theorem splitBolus_spec (total pctNow : ℚ) :
    (0 ≤ pctNow ∧ pctNow ≤ 100 →
      BolusCalculator.splitBolus total pctNow
        = (total * pctNow / 100, total - total * pctNow / 100)
      ∧ (BolusCalculator.splitBolus total pctNow).1
          + (BolusCalculator.splitBolus total pctNow).2 = total)
    ∧ (pctNow < 0 ∨ 100 < pctNow → BolusCalculator.splitBolus total pctNow = (0, 0))
    ∧ BolusCalculator.splitBolus 10 50 = (5, 5)
    ∧ BolusCalculator.splitBolus 10 150 = (0, 0) := by
  refine ⟨?_, ?_, ?_, ?_⟩
  · rintro ⟨h0, h1⟩
    have hn : ¬ (pctNow < 0 ∨ pctNow > 100) := by
      rintro (h | h)
      · exact absurd h0 (not_le.mpr h)
      · exact absurd h1 (not_le.mpr h)
    have he : pctNow / 100 * total = total * pctNow / 100 := by ring
    have hs : BolusCalculator.splitBolus total pctNow
        = (total * pctNow / 100, total - total * pctNow / 100) := by
      simp only [BolusCalculator.splitBolus, if_neg hn, he]
    exact ⟨hs, by rw [hs]; ring⟩
  · intro h
    simp [BolusCalculator.splitBolus, h]
  · norm_num [BolusCalculator.splitBolus]
  · norm_num [BolusCalculator.splitBolus]

/-- Witness of C24 at 50 and 150 percent. -/
theorem splitBolus_spec_witness :
    (BolusCalculator.splitBolus 10 50 = (10 * 50 / 100, 10 - 10 * 50 / 100)
      ∧ (BolusCalculator.splitBolus 10 50).1 + (BolusCalculator.splitBolus 10 50).2 = 10)
    ∧ BolusCalculator.splitBolus 10 150 = (0, 0) :=
  ⟨(splitBolus_spec 10 50).1 (by norm_num), (splitBolus_spec 10 150).2.1 (by norm_num)⟩

/-! ### Glucose sample (C27) -/

/-- C27: for every device state with IOB >= 0, every correction factor and
every random draw, with v the drawn variance (draw - 0.5) * 0.8 * 2, one
glucose sample changes the reading to reading + (2/12)*(1 + v)
- min(2/12, IOB)*correctionFactor and the IOB to IOB - min(2/12, IOB), and
changes nothing else, whatever the connected flag; for a draw in [0, 1] the
variance satisfies |v| <= 0.8; the value returned is the new reading when the
connected flag is set and -1 otherwise. -/
theorem sample_spec (d : Device) (correctionFactor random : ℚ)
    (hI : 0 ≤ d.bloodstream.insulinOnBoard) :
    (CGMReader.getCurrentGlucoseLevel d correctionFactor random).2
      = { d with
          cgm := { d.cgm with reading :=
            (d.cgm.reading
              + (2 : ℚ) / 12 * (1 + (random - 1 / 2) * CGMReader.volatility * 2)
              - min ((2 : ℚ) / 12) d.bloodstream.insulinOnBoard * correctionFactor) },
          bloodstream := { insulinOnBoard :=
            (d.bloodstream.insulinOnBoard
              - min ((2 : ℚ) / 12) d.bloodstream.insulinOnBoard) } }
    ∧ (0 ≤ random ∧ random ≤ 1 → |(random - 1 / 2) * CGMReader.volatility * 2| ≤ 8 / 10)
    ∧ (CGMReader.getCurrentGlucoseLevel d correctionFactor random).1
        = (if d.cgm.CGMConnected then
            (CGMReader.getCurrentGlucoseLevel d correctionFactor random).2.cgm.reading
           else -1) := by
  have hmin : (0 : ℚ) ≤ min ((2 : ℚ) / 12) d.bloodstream.insulinOnBoard :=
    le_min (by norm_num) hI
  have hmax : max 0 (min ((2 : ℚ) / 12) d.bloodstream.insulinOnBoard)
      = min ((2 : ℚ) / 12) d.bloodstream.insulinOnBoard := max_eq_right hmin
  have hsub : max 0 (d.bloodstream.insulinOnBoard
        - min ((2 : ℚ) / 12) d.bloodstream.insulinOnBoard)
      = d.bloodstream.insulinOnBoard - min ((2 : ℚ) / 12) d.bloodstream.insulinOnBoard :=
    max_eq_right (sub_nonneg.mpr (min_le_right _ _))
  refine ⟨?_, ?_, ?_⟩
  · unfold CGMReader.getCurrentGlucoseLevel
    simp only [CGMReader.increasePerHour, CGMReader.insulinUsageRate, Bloodstream.getIOB,
      Bloodstream.absorbUnits, hmax, hsub]
    split_ifs <;> simp <;> ring
  · rintro ⟨h0, h1⟩
    rw [abs_le]
    constructor <;> norm_num [CGMReader.volatility] <;> nlinarith
  · unfold CGMReader.getCurrentGlucoseLevel
    simp only []
    split_ifs <;> rfl

/-- Witness of C27 for the draw 1/4 and correction factor 2.5. -/
theorem sample_spec_witness :
    (CGMReader.getCurrentGlucoseLevel bolusDevice (5 / 2) (1 / 4)).2
      = { bolusDevice with
          cgm := { bolusDevice.cgm with reading :=
            (bolusDevice.cgm.reading
              + (2 : ℚ) / 12 * (1 + ((1 : ℚ) / 4 - 1 / 2) * CGMReader.volatility * 2)
              - min ((2 : ℚ) / 12) bolusDevice.bloodstream.insulinOnBoard * (5 / 2)) },
          bloodstream := { insulinOnBoard :=
            (bolusDevice.bloodstream.insulinOnBoard
              - min ((2 : ℚ) / 12) bolusDevice.bloodstream.insulinOnBoard) } }
    ∧ |((1 : ℚ) / 4 - 1 / 2) * CGMReader.volatility * 2| ≤ 8 / 10 :=
  have h := sample_spec bolusDevice (5 / 2) (1 / 4)
    (by norm_num [bolusDevice, Device.init, Bloodstream.init])
  ⟨h.1, h.2.1 (by norm_num)⟩

/-! ### A new bolus replaces the one in flight (C30) -/

/-- C30: on a pump that is neither suspended nor in emergency, `deliverBolus(a,
rate)` leaves the active amount at min(a, remaining) whatever amount x was
still undelivered: the result is the same device as without x, and x is not
injected; the same holds when `deliverExtendedDose` starts the delayed portion
while an amount x is in flight. -/
theorem deliverBolus_replaces (d : Device) (x a rate : ℚ) (suppressTime : Bool)
    (hS : d.pump.bolusSuspended = false) (hE : d.pump.emergencyStopped = false) :
    (PumpController.deliverBolus
        { d with pump := { d.pump with activeBolusAmount := x } } a rate
        suppressTime).pump.activeBolusAmount = min a d.insulin.insulinRemaining
    ∧ PumpController.deliverBolus
        { d with pump := { d.pump with activeBolusAmount := x } } a rate suppressTime
      = PumpController.deliverBolus d a rate suppressTime
    ∧ (PumpController.deliverBolus
        { d with pump := { d.pump with activeBolusAmount := x } } a rate
        suppressTime).bloodstream = d.bloodstream
    ∧ (0 < d.bolusCalculator.remainingExtendedDose →
        (BolusCalculator.deliverExtendedDose
          { d with pump := { d.pump with activeBolusAmount := x } }).pump.activeBolusAmount
          = min d.bolusCalculator.remainingExtendedDose d.insulin.insulinRemaining
        ∧ (BolusCalculator.deliverExtendedDose
          { d with pump := { d.pump with activeBolusAmount := x } }).bloodstream
          = d.bloodstream) := by
  refine ⟨?_, ?_, ?_, ?_⟩
  · simp [PumpController.deliverBolus, Device.logEvent, Device.emit, hS, hE,
      InsulinReserve.getInsulinRemaining, min_comm]
  · simp [PumpController.deliverBolus, Device.logEvent, Device.emit, hS, hE]
  · simp [PumpController.deliverBolus, Device.logEvent, Device.emit, hS, hE]
  · intro hL
    simp [BolusCalculator.deliverExtendedDose, PumpController.resumeBolus,
      PumpController.deliverBolus, Device.logEvent, Device.emit, hS, hE, hL,
      InsulinReserve.getInsulinRemaining, min_comm]

/-- Witness of C30: 3 units in flight replaced by a request of 2 and by a delayed portion of 1. -/
theorem deliverBolus_replaces_witness :
    (PumpController.deliverBolus
        { extendedPendingDevice with
          pump := { extendedPendingDevice.pump with activeBolusAmount := 3 } } 2 10
        true).pump.activeBolusAmount = min 2 extendedPendingDevice.insulin.insulinRemaining
    ∧ (BolusCalculator.deliverExtendedDose
          { extendedPendingDevice with
            pump := { extendedPendingDevice.pump with
              activeBolusAmount := 3 } }).pump.activeBolusAmount
        = min extendedPendingDevice.bolusCalculator.remainingExtendedDose
            extendedPendingDevice.insulin.insulinRemaining :=
  have h := deliverBolus_replaces extendedPendingDevice 3 2 10 true rfl rfl
  ⟨h.1, (h.2.2.2 (by norm_num [extendedPendingDevice, BolusCalculator.init])).1⟩

/-! ### A suspended pump holds no bolus (C29) -/

/-- A pump tick never changes the suspended flag, and on a suspended pump it leaves
the active bolus amount as it was. -/
theorem pump_keeps_suspended (d : Device) (e : Bool) :
    (PumpController.pump d e).pump.bolusSuspended = d.pump.bolusSuspended
    ∧ (d.pump.bolusSuspended = true →
        (PumpController.pump d e).pump.activeBolusAmount = d.pump.activeBolusAmount) := by
  cases e with
  | true => simp [PumpController.pump]
  | false =>
    rw [pump_no_fault]
    by_cases hs : d.pump.bolusSuspended = true
    · have hk := bolusStep_skip { d with pump := { d.pump with emergencyStopped := false } }
        (Or.inl hs)
      rw [hk]
      exact ⟨rfl, fun _ => rfl⟩
    · refine ⟨?_, fun h => absurd h hs⟩
      by_cases hA : d.pump.activeBolusAmount ≤ 0
      · have hk := bolusStep_skip { d with pump := { d.pump with emergencyStopped := false } }
          (Or.inr hA)
        rw [hk]
        rfl
      · have hS : d.pump.bolusSuspended = false := by simpa using hs
        have hk := bolusStep_active
          { d with pump := { d.pump with emergencyStopped := false } } hS (not_le.mp hA)
        rw [hk]
        rfl

/-- Every pump call preserves: suspended implies that the active bolus amount is 0. -/
theorem applyOp_suspended_zero (d : Device) (op : PumpOp)
    (hi : d.pump.bolusSuspended = true → d.pump.activeBolusAmount = 0) :
    (PumpController.applyOp d op).pump.bolusSuspended = true →
      (PumpController.applyOp d op).pump.activeBolusAmount = 0 := by
  cases op with
  | tick errorChecked =>
    intro h
    have hk := pump_keeps_suspended d errorChecked
    have hs : d.pump.bolusSuspended = true := hk.1.symm.trans h
    exact (hk.2 hs).trans (hi hs)
  | resumeBolus =>
    show (PumpController.resumeBolus d).pump.bolusSuspended = true →
      (PumpController.resumeBolus d).pump.activeBolusAmount = 0
    unfold PumpController.resumeBolus
    split_ifs
    · intro h; exact absurd h (by simp [Device.logEvent, Device.emit])
    · exact hi
  | suspendBolus => intro _; rfl
  | deliverBolus amount rate suppressTime =>
    show (PumpController.deliverBolus d amount rate suppressTime).pump.bolusSuspended = true →
      (PumpController.deliverBolus d amount rate suppressTime).pump.activeBolusAmount = 0
    unfold PumpController.deliverBolus
    split_ifs with hb
    · exact hi
    · intro h
      have h2 : d.pump.bolusSuspended = true := h
      simp [h2] at hb
  | adjustBasalRate rate => exact hi
  | triggerEmergencyStop => exact hi

/-- A sequence of pump calls preserves: suspended implies that the active bolus
amount is 0. -/
theorem runOps_suspended_zero (ops : List PumpOp) : ∀ d : Device,
    (d.pump.bolusSuspended = true → d.pump.activeBolusAmount = 0) →
    (PumpController.runOps d ops).pump.bolusSuspended = true →
      (PumpController.runOps d ops).pump.activeBolusAmount = 0 := by
  induction ops with
  | nil => intro d hi; exact hi
  | cons op ops ih => intro d hi; exact ih _ (applyOp_suspended_zero d op hi)

/-- C29: in every pump state reached from the initial state by a sequence of
`deliverBolus`, `suspendBolus`, `resumeBolus`, `adjustBasalRate`,
`triggerEmergencyStop` and tick calls, a suspended pump has active bolus amount 0. -/
theorem suspended_holds_no_bolus (ops : List PumpOp)
    (hs : (PumpController.runOps Device.init ops).pump.bolusSuspended = true) :
    (PumpController.runOps Device.init ops).pump.activeBolusAmount = 0 :=
  runOps_suspended_zero ops Device.init (fun h => absurd h (by decide)) hs

/-- Witness of C29: `mixedOps` uses every kind of call and ends suspended. -/
theorem suspended_holds_no_bolus_witness :
    (PumpController.runOps Device.init mixedOps).pump.bolusSuspended = true
    ∧ (PumpController.runOps Device.init mixedOps).pump.activeBolusAmount = 0 :=
  have hs : (PumpController.runOps Device.init mixedOps).pump.bolusSuspended = true := by
    norm_num [mixedOps, PumpController.runOps, PumpController.applyOp,
      PumpController.deliverBolus, PumpController.pump, PumpController.basalStep,
      PumpController.bolusStep, PumpController.adjustBasalRate,
      PumpController.triggerEmergencyStop, PumpController.resumeBolus,
      PumpController.suspendBolus, Device.logEvent, Device.emit, Device.init,
      PumpController.init, InsulinReserve.init, InsulinReserve.maxAmount,
      InsulinReserve.getInsulinRemaining, InsulinReserve.useInsulin, Bloodstream.init,
      Bloodstream.injectUnits]
  ⟨hs, suspended_holds_no_bolus mixedOps hs⟩

/-! ### An override lasts until the next calculation (C22) -/

/-- Raising an alert leaves the override alone. -/
theorem override_raise (d : Device) (t : Int) :
    (Alert.raise d t).overrideState = d.overrideState := by
  unfold Alert.raise
  split_ifs
  · cases Alert.logText t <;> rfl
  · rfl

/-- Resuming leaves the override alone. -/
theorem override_resumeBolus (d : Device) :
    (PumpController.resumeBolus d).overrideState = d.overrideState := by
  unfold PumpController.resumeBolus
  split_ifs <;> rfl

/-- Requesting a bolus from the pump leaves the override alone. -/
theorem override_deliverBolus (d : Device) (amount rate : ℚ) (suppressTime : Bool) :
    (PumpController.deliverBolus d amount rate suppressTime).overrideState
      = d.overrideState := by
  unfold PumpController.deliverBolus
  split_ifs <;> rfl

/-- The safety evaluation leaves the override alone. -/
theorem override_safetyChecks (d : Device) (glucose target : ℚ) (inp : TickInput) :
    (Device.safetyChecks d glucose target inp).overrideState = d.overrideState := by
  have hreset : ∀ (x : Device) (t : Int), (Alert.reset x t).overrideState = x.overrideState :=
    fun _ _ => rfl
  have hsusp : ∀ x : Device, (PumpController.suspendBolus x).overrideState = x.overrideState :=
    fun _ => rfl
  have hcgm : ∀ (x : Device) (e : Bool),
      (CGMReader.isCGMConnected x e).2.overrideState = x.overrideState := fun _ _ => rfl
  simp only [Device.safetyChecks, apply_ite Device.overrideState, override_raise, hreset,
    hsusp, hcgm, ite_self]

/-- Handing over the delayed portion leaves the override alone. -/
theorem override_deliverExtendedDose (d : Device) :
    (BolusCalculator.deliverExtendedDose d).overrideState = d.overrideState := by
  unfold BolusCalculator.deliverExtendedDose
  split_ifs
  · exact (override_deliverBolus _ _ _ _).trans (override_resumeBolus d)
  · rfl

/-- The countdown step leaves the override alone. -/
theorem override_updateCountdown (d : Device) :
    (BolusCalculator.updateCountdown d).overrideState = d.overrideState := by
  unfold BolusCalculator.updateCountdown
  simp only []
  split_ifs
  · exact override_deliverExtendedDose _
  · rfl

/-- A pump tick leaves the override alone. -/
theorem override_pump (d : Device) (e : Bool) :
    (PumpController.pump d e).overrideState = d.overrideState := by
  unfold PumpController.pump PumpController.basalStep PumpController.bolusStep
  simp only []
  split_ifs <;> rfl

/-- A glucose sample leaves the override alone. -/
theorem override_sample (d : Device) (cf rnd : ℚ) :
    (CGMReader.getCurrentGlucoseLevel d cf rnd).2.overrideState = d.overrideState := by
  unfold CGMReader.getCurrentGlucoseLevel
  simp only []
  split_ifs <;> rfl

/-- The control decision leaves the override alone. -/
theorem override_analyzeGlucoseData (d : Device) (glucose : ℚ) (profile : Profile) :
    (ControlIQAlgorithm.analyzeGlucoseData d glucose profile).overrideState
      = d.overrideState := by
  unfold ControlIQAlgorithm.analyzeGlucoseData
  simp only []
  split_ifs <;> rfl

/-- A monitoring tick leaves the override alone. -/
theorem override_monitor (d : Device) (inp : TickInput) :
    (Device.monitor d inp).overrideState = d.overrideState := by
  unfold Device.monitor
  simp only []
  refine (override_updateCountdown _).trans ?_
  have h1 := override_sample d inp.profile.correctionFactor inp.random
  have h2 := (override_safetyChecks
    (CGMReader.getCurrentGlucoseLevel d inp.profile.correctionFactor inp.random).2
    (CGMReader.getCurrentGlucoseLevel d inp.profile.correctionFactor inp.random).1
    inp.profile.targetGlucose inp).trans h1
  show Device.overrideState (if _ then _ else _) = _
  split_ifs
  · unfold Device.pumpLogic
    exact ((override_pump _ _).trans (override_analyzeGlucoseData _ _ _)).trans h2
  · exact h2

/-- A device tick leaves the override alone. -/
theorem override_tick (d : Device) (inp : TickInput) :
    (Device.tick d inp).overrideState = d.overrideState := by
  unfold Device.tick
  simp only []
  split_ifs
  · exact override_monitor _ _
  · rfl
  · exact override_monitor _ _
  · rfl

/-- The delivery command leaves the override alone. -/
theorem override_on_btnDeliver_clicked (d : Device) (ui : BolusCalculator.DeliverInput)
    (profile : Profile) :
    (BolusCalculator.on_btnDeliver_clicked d ui profile).overrideState = d.overrideState := by
  have h1 := override_resumeBolus d
  unfold BolusCalculator.on_btnDeliver_clicked
  simp only []
  split_ifs
  · rfl
  · rfl
  · rfl
  · exact (override_deliverBolus
      { PumpController.resumeBolus d with bolusCalculator :=
        { (PumpController.resumeBolus d).bolusCalculator with countdownMinutes := ui.mins } }
      _ _ true).trans h1
  · exact (override_deliverBolus _ _ _ true).trans h1
  · rfl

/-- Every command other than calculate and override-confirm leaves the override alone. -/
theorem override_exec (d : Device) (c : Command) (hc : c.keepsOverride) :
    (d.exec c).overrideState = d.overrideState := by
  cases c with
  | power =>
    show d.power.overrideState = d.overrideState
    unfold Device.power
    split_ifs <;> rfl
  | startMonitoring inp =>
    show (d.startMonitoring inp).overrideState = d.overrideState
    unfold Device.startMonitoring
    simp only []
    split_ifs
    · exact override_tick _ _
    · rfl
  | togglePaused =>
    show d.togglePaused.overrideState = d.overrideState
    unfold Device.togglePaused
    split_ifs <;> rfl
  | tick inp => exact override_tick _ _
  | sample cf rnd => exact override_sample d cf rnd
  | simCarbIntake carbs profile => rfl
  | deliverBolus amount rate st => exact override_deliverBolus d amount rate st
  | suspendBolus => rfl
  | resumeBolus => exact override_resumeBolus d
  | refillInsulin => rfl
  | chargeBattery => rfl
  | calculateClicked ok1 glucose ok2 carbs profile => exact absurd hc id
  | overrideConfirmClicked ok dose => exact absurd hc id
  | deliverClicked ui profile => exact override_on_btnDeliver_clicked _ _ _
  | cancelBolusClicked => rfl

/-- A session without calculate and override-confirm leaves the override alone. -/
theorem override_run (cmds : List Command) : ∀ d : Device,
    (∀ c ∈ cmds, c.keepsOverride) → (d.run cmds).overrideState = d.overrideState := by
  induction cmds with
  | nil => intro d _; rfl
  | cons c cs ih =>
    intro d hk
    exact (ih (d.exec c) (fun x hx => hk x (List.mem_cons_of_mem _ hx))).trans
      (override_exec d c (hk c (List.mem_cons_self _ _)))

/-- C22: after `overrideDose d v` and any session of commands other than calculate
and override-confirm, `calculateBolus` returns `v` for all inputs; the calculate
entry point (with both fields parsing) then turns the flag off, stores 0, shows
the computed total bolus for its inputs, and `calculateBolus` afterwards returns
that total. -/
theorem override_until_calculate (d : Device) (v : ℚ) (cmds : List Command)
    (hk : ∀ c ∈ cmds, c.keepsOverride) (glucose carbs : ℚ) (profile : Profile) :
    BolusCalculator.calculateBolus ((BolusCalculator.overrideDose d v).run cmds)
        glucose carbs profile = v
    ∧ (BolusCalculator.on_btnCalculate_clicked ((BolusCalculator.overrideDose d v).run cmds)
        true glucose true carbs profile).bolusCalculator.doseOverridden = false
    ∧ (BolusCalculator.on_btnCalculate_clicked ((BolusCalculator.overrideDose d v).run cmds)
        true glucose true carbs profile).bolusCalculator.overriddenDose = 0
    ∧ (BolusCalculator.on_btnCalculate_clicked ((BolusCalculator.overrideDose d v).run cmds)
        true glucose true carbs profile).events
      = ((BolusCalculator.overrideDose d v).run cmds).events
        ++ [Event.outputResult "%1"
            [BolusCalculator.calculateTotalBolus glucose carbs profile.targetGlucose profile]]
    ∧ BolusCalculator.calculateBolus
        (BolusCalculator.on_btnCalculate_clicked ((BolusCalculator.overrideDose d v).run cmds)
          true glucose true carbs profile) glucose carbs profile
      = BolusCalculator.calculateTotalBolus glucose carbs profile.targetGlucose profile := by
  have h := override_run cmds (BolusCalculator.overrideDose d v) hk
  simp only [Device.overrideState, Prod.mk.injEq] at h
  have hf : ((BolusCalculator.overrideDose d v).run cmds).bolusCalculator.doseOverridden
      = true := h.1
  have hv : ((BolusCalculator.overrideDose d v).run cmds).bolusCalculator.overriddenDose
      = v := h.2
  refine ⟨?_, ?_, ?_, ?_, ?_⟩
  · simp [BolusCalculator.calculateBolus, hf, hv]
  · simp [BolusCalculator.on_btnCalculate_clicked, Device.emit]
  · simp [BolusCalculator.on_btnCalculate_clicked, Device.emit]
  · simp [BolusCalculator.on_btnCalculate_clicked, Device.emit, BolusCalculator.calculateBolus,
      BolusCalculator.calculateTotalBolus]
  · simp [BolusCalculator.on_btnCalculate_clicked, Device.emit, BolusCalculator.calculateBolus,
      BolusCalculator.calculateTotalBolus]

/-- Witness of C22: an override of 7 units across `overrideSession`. -/
theorem override_until_calculate_witness :
    BolusCalculator.calculateBolus ((BolusCalculator.overrideDose Device.init 7).run
        overrideSession) 8 60 defaultProfile = 7
    ∧ (BolusCalculator.on_btnCalculate_clicked
        ((BolusCalculator.overrideDose Device.init 7).run overrideSession)
        true 8 true 60 defaultProfile).bolusCalculator.doseOverridden = false :=
  have h := override_until_calculate Device.init 7 overrideSession
    (by simp [overrideSession, Command.keepsOverride]) 8 60 defaultProfile
  ⟨h.1, h.2.1⟩

/-! ### The extended schedule over ticks (C25) -/

set_option maxHeartbeats 4000000 in
set_option maxRecDepth 100000 in
/-- C25, evaluated at the failing input: after an extended request (half of 3.16
units now, half in 10 minutes) and the cancel command, the pump is suspended but
1.58 units are still scheduled with 10 minutes left; the next tick leaves 5
minutes on the countdown, the second tick resumes the pump with the 1.58 units as active bolus,
and the third tick injects 10/12 unit of them. -/
theorem cancel_keeps_extended_schedule :
    (Device.init.run cancelSession).pump.bolusSuspended = true
    ∧ (Device.init.run cancelSession).bolusCalculator.remainingExtendedDose = 79 / 50
    ∧ (Device.init.run cancelSession).bolusCalculator.countdownMinutes = 10
    ∧ (Device.tick (Device.init.run cancelSession)
        quietInput).bolusCalculator.countdownMinutes = 5
    ∧ (Device.tick (Device.tick (Device.init.run cancelSession) quietInput)
        quietInput).pump.bolusSuspended = false
    ∧ (Device.tick (Device.tick (Device.init.run cancelSession) quietInput)
        quietInput).pump.activeBolusAmount = 79 / 50
    ∧ (Device.tick (Device.tick (Device.tick (Device.init.run cancelSession) quietInput)
        quietInput) quietInput).pump.activeBolusAmount = 56 / 75
    ∧ (Device.tick (Device.tick (Device.tick (Device.init.run cancelSession) quietInput)
        quietInput) quietInput).bloodstream.insulinOnBoard
      - (Device.tick (Device.tick (Device.init.run cancelSession) quietInput)
        quietInput).bloodstream.insulinOnBoard = 5 / 6 := by
  norm_num [Device.run, Device.exec, Device.power, Device.startMonitoring, Device.tick,
    cancelSession, shortExtendedRequest, extendedRequest, Device.noPower,
    BatteryManager.drainBattery, BolusCalculator.on_btnDeliver_clicked,
    BolusCalculator.on_btnCancelBolus_clicked, BolusCalculator.calculateBolus,
    BolusCalculator.calculateCarbBolus, BolusCalculator.calculateCorrectionBolus,
    BatteryManager.getBatteryLevel, Device.monitor, CGMReader.getCurrentGlucoseLevel,
    quietInput, defaultProfile, Device.safetyChecks, Device.pumpLogic,
    UserInterface.refresh, BolusCalculator.updateCountdown,
    BolusCalculator.deliverExtendedDose, Device.emit, Device.logEvent, Alert.raise, Alert.reset,
    PumpController.suspendBolus, PumpController.resumeBolus, PumpController.deliverBolus,
    PumpController.pump, PumpController.basalStep, PumpController.bolusStep,
    PumpController.adjustBasalRate, ControlIQAlgorithm.analyzeGlucoseData,
    ControlIQAlgorithm.adjustBasalRate, BolusCalculator.bolusRate,
    CGMReader.isCGMConnected, Device.init, PumpController.init, CGMReader.init,
    CGMReader.startAmount, Bloodstream.init, Bloodstream.absorbUnits, Bloodstream.getIOB,
    Bloodstream.injectUnits, BolusCalculator.init, InsulinReserve.useInsulin,
    InsulinReserve.getInsulinRemaining, InsulinReserve.init, InsulinReserve.isInsulinLow,
    BatteryManager.isBatteryCritical, BatteryManager.init, InsulinReserve.maxAmount,
    InsulinReserve.lowAmount, BatteryManager.criticalValue, CGMReader.insulinUsageRate,
    CGMReader.increasePerHour, CGMReader.volatility, Alert.GLUCOSE_LOW, Alert.logText,
    Alert.BATTERY_LOW, Alert.INSULIN_LOW, Alert.CGM_DISCONNECTED, Alert.PUMP_OCCLUSION,
    Alert.GLUCOSE_HIGH]

/-! ### A tick up to the refresh does not read the schedule -/

end InsulinPump
